import Mathlib

/-!
Shallow embedding of the visualization-text analyzer of `martwozniak/visualizer-d3`
(`src/main.ts`): the chart-type inference cascade, the data / style extraction
regexes of `parseVisualizationData`, the permissive fallback
`extractSimpleDataArray`, and the code synthesis `generateFinalCode` together
with the stored templates it rewrites.

Strings are handled as `List Char`; every JavaScript regular expression used by
the source is translated into an explicit deterministic scanner (each regex in
the source backtracks only in ways equivalent to the deterministic scan, which
is noted at the corresponding definition).  `JSON.parse` / `JSON.stringify` are
modelled for the JSON value grammar (objects, arrays, strings with escapes,
decimal numbers); numbers are carried as an integer mantissa with a decimal
exponent, which represents exactly the decimal literals the analyzer ever
produces or consumes.
-/

set_option maxRecDepth 40000

namespace VisD3

/-- `startsWithL pat l` is true when `pat` is a prefix of `l`
(the anchored part of a JS regex literal match). -/
def startsWithL : List Char → List Char → Bool
  | [], _ => true
  | _ :: _, [] => false
  | p :: ps, c :: cs => p == c && startsWithL ps cs

/-- `hasSub pat hay`: `pat` occurs as a contiguous substring of `hay`;
the model of JavaScript `String.prototype.includes`. -/
def hasSub (pat : List Char) : List Char → Bool
  | [] => startsWithL pat []
  | c :: cs => startsWithL pat (c :: cs) || hasSub pat cs

/-- `includesS code pat`: `code.includes(pat)` of `src/main.ts`. -/
def includesS (code pat : String) : Bool := hasSub pat.data code.data

/-! ### The chart-type cascade of `parseVisualizationData` (main.ts 4189-4237)

Each `cond*` is one `if` condition of the cascade, in source order; `&&` binds
tighter than `||` exactly as in JavaScript. -/
def condDonut (c : String) : Bool :=
  includesS c "innerRadius" && (includesS c "d3.pie" || includesS c ".pie()")

def condPie (c : String) : Bool :=
  includesS c "d3.pie" || includesS c ".pie()" || (includesS c "arc()" && includesS c "pie")

def condHistogram (c : String) : Bool :=
  includesS c "d3.histogram" || includesS c ".histogram()" || includesS c "bins"

def condHeatmap (c : String) : Bool :=
  includesS c "heatmap" || (includesS c "rect" && includesS c "colorScale")

def condTimeline (c : String) : Bool :=
  includesS c "timeline" || includesS c "timeScale" || includesS c "events"

def condRadar (c : String) : Bool :=
  includesS c "radar" || includesS c "angleScale" || includesS c "radiusScale"

def condBoxPlot (c : String) : Bool :=
  (includesS c "box" && includesS c "whisker") || includesS c "quartile"

def condBubble (c : String) : Bool :=
  includesS c "bubble" || (includesS c "circle" && includesS c "scale" && includesS c "radius")

def condStacked (c : String) : Bool :=
  includesS c "stacked" || includesS c "stack()" || includesS c "d3.stack"

def condHorizontalBar (c : String) : Bool :=
  includesS c "scaleLinear" && includesS c "rect" && includesS c "attr(\"x\"" &&
    !includesS c "scaleBand"

def condArea (c : String) : Bool :=
  includesS c "d3.area" || includesS c ".area()" ||
    (includesS c "area" && includesS c "y0" && includesS c "y1")

def condLine (c : String) : Bool :=
  includesS c "d3.line" || includesS c ".line()" || (includesS c "line" && includesS c "curve")

def condBar (c : String) : Bool :=
  includesS c "scaleBand" || (includesS c "rect" && includesS c "bandwidth") || includesS c "bar"

def condScatter (c : String) : Bool :=
  (includesS c "circle" && includesS c "cx" && includesS c "cy") || includesS c "scatter"

def condAppendRect (c : String) : Bool :=
  includesS c "append(\"rect\")" || includesS c "append(\x27rect\x27)"

def condAppendCircle (c : String) : Bool :=
  includesS c "append(\"circle\")" || includesS c "append(\x27circle\x27)"

def condAppendPath (c : String) : Bool :=
  includesS c "append(\"path\")" || includesS c "append(\x27path\x27)"

/-- The chart-type inference cascade (main.ts 4189-4237): the first matching
predicate wins, a final block of `append(...)` heuristics runs when no keyword
predicate matched, and the default is `bar-chart`. -/
def inferChartType (c : String) : String :=
  if condDonut c then "donut-chart"
  else if condPie c then "pie-chart"
  else if condHistogram c then "histogram"
  else if condHeatmap c then "heatmap"
  else if condTimeline c then "timeline"
  else if condRadar c then "radar"
  else if condBoxPlot c then "box-plot"
  else if condBubble c then "bubble-chart"
  else if condStacked c then "stacked-bar-chart"
  else if condHorizontalBar c then "horizontal-bar"
  else if condArea c then "area-chart"
  else if condLine c then "line-chart"
  else if condBar c then "bar-chart"
  else if condScatter c then "scatter-plot"
  else if condAppendRect c then "bar-chart"
  else if condAppendCircle c then "scatter-plot"
  else if condAppendPath c then
    if includesS c "stroke" && !includesS c "fill" then "line-chart"
    else if includesS c "fill" && includesS c "opacity" then "area-chart"
    else "line-chart"
  else "bar-chart"

/-- The closed set of tags `inferChartType` can produce. -/
def chartTypeTags : List String :=
  ["donut-chart", "pie-chart", "histogram", "heatmap", "timeline", "radar",
   "box-plot", "bubble-chart", "stacked-bar-chart", "horizontal-bar",
   "area-chart", "line-chart", "bar-chart", "scatter-plot"]

/-- All predicates of the cascade, including the broader `append(...)`
shape-drawing heuristics of the final block. -/
def anyTypePredicate (c : String) : Bool :=
  condDonut c || condPie c || condHistogram c || condHeatmap c || condTimeline c ||
  condRadar c || condBoxPlot c || condBubble c || condStacked c ||
  condHorizontalBar c || condArea c || condLine c || condBar c || condScatter c ||
  condAppendRect c || condAppendCircle c || condAppendPath c

/-! ### Style-parameter extraction (main.ts 4120-4135)

`/width[:\s]*=?[:\s]*(\d+)/i`, the same for `height`, and
`/(?:fill|stroke|color)[:\s]*['"`]([^'"`]+)['"`]/i`.  The character class
`[:\s]` is a colon or JavaScript whitespace; the greedy runs of these regexes
backtrack only into configurations that fail identically, so a deterministic
maximal-munch scan is an exact model (ASCII whitespace modelled; the analyzer
never emits other space characters). -/
def jsWs (c : Char) : Bool :=
  c = ' ' || c = '\t' || c = '\n' || c = '\r' || c = '\x0b' || c = '\x0c'

def isColonWs (c : Char) : Bool := c = ':' || jsWs c

/-- Case-insensitive prefix test (`pat` is given lowercase). -/
def startsWithCI : List Char → List Char → Bool
  | [], _ => true
  | _ :: _, [] => false
  | p :: ps, c :: cs => p == c.toLower && startsWithCI ps cs

/-- Value of a digit run, as `parseInt` on a digit-only capture. -/
def natOfDigits (l : List Char) : Nat :=
  l.foldl (fun acc c => acc * 10 + (c.toNat - 48)) 0

/-- One anchored attempt of `kw[:\s]*=?[:\s]*(\d+)` (case-insensitive). -/
def tryKwNum (kw : List Char) (l : List Char) : Option Nat :=
  if startsWithCI kw l then
    let s1 := (l.drop kw.length).dropWhile isColonWs
    let s2 := if startsWithL ['='] s1 then (s1.drop 1).dropWhile isColonWs else s1
    let digits := s2.takeWhile Char.isDigit
    if digits.isEmpty then none else some (natOfDigits digits)
  else none

/-- Leftmost match of `kw[:\s]*=?[:\s]*(\d+)` (case-insensitive). -/
def findKwNum (kw : List Char) : List Char → Option Nat
  | [] => none
  | c :: cs =>
    match tryKwNum kw (c :: cs) with
    | some n => some n
    | none => findKwNum kw cs

def quoteChar (c : Char) : Bool := c = '"' || c = Char.ofNat 39 || c = Char.ofNat 96

/-- One anchored attempt of `(?:fill|stroke|color)[:\s]*['"`]([^'"`]+)['"`]`. -/
def tryColorStr (l : List Char) : Option (List Char) :=
  let kw :=
    if startsWithCI ("fill".data) l then some 4
    else if startsWithCI ("stroke".data) l then some 6
    else if startsWithCI ("color".data) l then some 5
    else none
  match kw with
  | none => none
  | some n =>
    match (l.drop n).dropWhile isColonWs with
    | [] => none
    | q :: rest =>
      if quoteChar q then
        let body := rest.takeWhile (fun c => !quoteChar c)
        match rest.drop body.length with
        | [] => none
        | _ :: _ => if body.isEmpty then none else some body
      else none

/-- Leftmost match of the color regex. -/
def findColorStr : List Char → Option (List Char)
  | [] => none
  | c :: cs =>
    match tryColorStr (c :: cs) with
    | some b => some b
    | none => findColorStr cs

/-- The `{width, height, color}` triple assembled by `parseVisualizationData`
(main.ts 4113-4135): each field independently defaults when its regex finds
no match. -/
structure StyleParams where
  width : Nat
  height : Nat
  color : String
  deriving DecidableEq, Repr

def extractStyleParams (code : String) : StyleParams :=
  { width := (findKwNum ("width".data) code.data).getD 600
    height := (findKwNum ("height".data) code.data).getD 400
    color := ((findColorStr code.data).map fun l => String.mk l).getD "steelblue" }

/-! ### JSON values, `JSON.parse` and `JSON.stringify`

The analyzer calls the platform's `JSON.parse` / `JSON.stringify` on array /
object literals of strings and decimal numbers.  Numbers are modelled as an
integer mantissa with a decimal exponent (`m / 10 ^ e`, kept in canonical form
with no trailing zero factors), which represents exactly the decimal literals
exchanged here; binary floating-point rounding is idealized away, and
`parseFloat` on an unparsable capture is the explicit `jnan` (which
`JSON.stringify` renders as `null`, as in JavaScript). -/
inductive JValue where
  | jnull : JValue
  | jnan : JValue
  | jbool : Bool → JValue
  | jnum : Int → Nat → JValue
  | jstr : String → JValue
  | jarr : List JValue → JValue
  | jobj : List (String × JValue) → JValue

open JValue

def jsonWsChar (c : Char) : Bool := c = ' ' || c = '\t' || c = '\n' || c = '\r'

def skipJWs (l : List Char) : List Char := l.dropWhile jsonWsChar

def hexVal (c : Char) : Option Nat :=
  if '0' ≤ c ∧ c ≤ '9' then some (c.toNat - 48)
  else if 'a' ≤ c ∧ c ≤ 'f' then some (c.toNat - 87)
  else if 'A' ≤ c ∧ c ≤ 'F' then some (c.toNat - 55)
  else none

/-- The simple (non-`\u`) JSON escapes. -/
def jsonEscDecode (e : Char) : Option Char :=
  if e = '"' then some '"'
  else if e = '\\' then some '\\'
  else if e = '/' then some '/'
  else if e = 'b' then some '\x08'
  else if e = 'f' then some '\x0c'
  else if e = 'n' then some '\n'
  else if e = 'r' then some '\r'
  else if e = 't' then some '\t'
  else none

/-- Body of a JSON string after the opening quote: decodes escapes, rejects
raw control characters, returns the content and the text after the closing
quote.  (Surrogate-pair recombination of `\uXXXX` escapes is not modelled;
nothing in the analyzer produces them.) -/
def parseJStrBody : List Char → Option (List Char × List Char)
  | [] => none
  | c :: rest =>
    if c = '"' then some ([], rest)
    else if c = '\\' then
      match rest with
      | [] => none
      | e :: rest2 =>
        if e = 'u' then
          match rest2 with
          | a :: b :: c2 :: d :: rest3 =>
            match hexVal a, hexVal b, hexVal c2, hexVal d with
            | some ha, some hb, some hc, some hd =>
              (parseJStrBody rest3).map fun p =>
                (Char.ofNat (((ha * 16 + hb) * 16 + hc) * 16 + hd) :: p.1, p.2)
            | _, _, _, _ => none
          | _ => none
        else
          match jsonEscDecode e with
          | some ch => (parseJStrBody rest2).map fun p => (ch :: p.1, p.2)
          | none => none
    else if c.toNat < 32 then none
    else (parseJStrBody rest).map fun p => (c :: p.1, p.2)

/-- Canonical form: strip factors of ten out of the mantissa. -/
def normNum : Int → Nat → Int × Nat
  | m, 0 => (m, 0)
  | m, e + 1 =>
    if m = 0 then (0, 0)
    else if m % 10 = 0 then normNum (m / 10) e
    else (m, e + 1)

def parseSignDigits (l : List Char) : Option ((Bool × List Char) × List Char) :=
  let (neg, r) : Bool × List Char :=
    if startsWithL ['+'] l then (false, l.drop 1)
    else if startsWithL ['-'] l then (true, l.drop 1)
    else (false, l)
  let d := r.takeWhile Char.isDigit
  if d.isEmpty then none else some ((neg, d), r.drop d.length)

def parseExpPart (l : List Char) : Option ((Bool × List Char) × List Char) :=
  if startsWithL ['e'] l || startsWithL ['E'] l then parseSignDigits (l.drop 1)
  else some ((false, []), l)

/-- A JSON number token (grammar `-? int frac? exp?`, leading zeros rejected
by the `0`-or-nonzero-start rule), folded into canonical mantissa/exponent. -/
def parseJNum (l : List Char) : Option (JValue × List Char) :=
  let (neg, l1) : Bool × List Char :=
    match l with
    | c :: r => if c = '-' then (true, r) else (false, c :: r)
    | [] => (false, [])
  match l1 with
  | [] => none
  | c :: _ =>
    if c.isDigit then
      let intd := if c = '0' then ['0'] else l1.takeWhile Char.isDigit
      let l2 := l1.drop intd.length
      let fracPresent := startsWithL ['.'] l2
      let fracd := if fracPresent then (l2.drop 1).takeWhile Char.isDigit else []
      if fracPresent && fracd.isEmpty then none
      else
        let l3 := if fracPresent then (l2.drop 1).drop fracd.length else l2
        match parseExpPart l3 with
        | none => none
        | some ((expNeg, expd), l4) =>
          let mantissa : Int := (natOfDigits (intd ++ fracd) : Int)
          let m0 : Int := if neg then -mantissa else mantissa
          let k : Int := if expNeg then -(natOfDigits expd : Int) else (natOfDigits expd : Int)
          let net : Int := k - (fracd.length : Int)
          let pair :=
            if 0 ≤ net then normNum (m0 * (10 : Int) ^ net.toNat) 0
            else normNum m0 (-net).toNat
          some (jnum pair.1 pair.2, l4)
    else none

mutual

/-- One JSON value (fuel-indexed recursive descent; fuel bounds the nesting
and element count, `input length + 1` always suffices). -/
def parseJVal : Nat → List Char → Option (JValue × List Char)
  | 0, _ => none
  | fuel + 1, l =>
    match skipJWs l with
    | [] => none
    | c :: rest =>
      if c = '"' then
        (parseJStrBody rest).map fun p => (jstr (String.mk p.1), p.2)
      else if c = '[' then
        let r := skipJWs rest
        if startsWithL [']'] r then some (jarr [], r.drop 1)
        else (parseJElems fuel r).map fun p => (jarr p.1, p.2)
      else if c = '{' then
        let r := skipJWs rest
        if startsWithL ['}'] r then some (jobj [], r.drop 1)
        else (parseJFields fuel r).map fun p => (jobj p.1, p.2)
      else if startsWithL ("true".data) (c :: rest) then
        some (jbool true, (c :: rest).drop 4)
      else if startsWithL ("false".data) (c :: rest) then
        some (jbool false, (c :: rest).drop 5)
      else if startsWithL ("null".data) (c :: rest) then
        some (jnull, (c :: rest).drop 4)
      else
        parseJNum (c :: rest)

/-- Comma-separated array elements up to the closing bracket. -/
def parseJElems : Nat → List Char → Option (List JValue × List Char)
  | 0, _ => none
  | fuel + 1, l => do
    let (v, r1) ← parseJVal fuel l
    let r := skipJWs r1
    if startsWithL [','] r then (parseJElems fuel (r.drop 1)).map fun p => (v :: p.1, p.2)
    else if startsWithL [']'] r then some ([v], r.drop 1)
    else none

/-- Comma-separated `"key": value` fields up to the closing brace. -/
def parseJFields : Nat → List Char → Option (List (String × JValue) × List Char)
  | 0, _ => none
  | fuel + 1, l =>
    let r0 := skipJWs l
    if startsWithL ['"'] r0 then do
      let (k, r2) ← parseJStrBody (r0.drop 1)
      let r3 := skipJWs r2
      if startsWithL [':'] r3 then do
        let (v, r4) ← parseJVal fuel (r3.drop 1)
        let r5 := skipJWs r4
        if startsWithL [','] r5 then
          (parseJFields fuel (r5.drop 1)).map fun p => ((String.mk k, v) :: p.1, p.2)
        else if startsWithL ['}'] r5 then some ([(String.mk k, v)], r5.drop 1)
        else none
      else none
    else none

end

/-- `JSON.parse` on a character list: one value, then only whitespace. -/
def jsonParseL (l : List Char) : Option JValue :=
  match parseJVal (l.length + 1) l with
  | some (v, rest) => if (skipJWs rest).isEmpty then some v else none
  | none => none

def jsonParse (s : String) : Option JValue := jsonParseL s.data

def hexDigitChar (n : Nat) : Char :=
  if n < 10 then Char.ofNat (48 + n) else Char.ofNat (87 + (n - 10))

/-- `JSON.stringify` escaping of one string character. -/
def escapeJChar (c : Char) : List Char :=
  if c = '"' then ['\\', '"']
  else if c = '\\' then ['\\', '\\']
  else if c = '\x08' then ['\\', 'b']
  else if c = '\x0c' then ['\\', 'f']
  else if c = '\n' then ['\\', 'n']
  else if c = '\r' then ['\\', 'r']
  else if c = '\t' then ['\\', 't']
  else if c.toNat < 32 then
    ['\\', 'u', '0', '0', hexDigitChar (c.toNat / 16), hexDigitChar (c.toNat % 16)]
  else [c]

def stringifyStr (s : String) : List Char :=
  '"' :: s.data.foldr (fun c acc => escapeJChar c ++ acc) ['"']

def digitChar (n : Nat) : Char := Char.ofNat (48 + n)

/-- Decimal digits of a natural number, most significant first
(fuel-indexed so it evaluates by kernel reduction; `n + 1` fuel suffices). -/
def natToDigitsAux : Nat → Nat → List Char
  | 0, _ => []
  | fuel + 1, n =>
    if n < 10 then [digitChar n]
    else natToDigitsAux fuel (n / 10) ++ [digitChar (n % 10)]

def natToDigits (n : Nat) : List Char := natToDigitsAux (n + 1) n

def intToDigits (m : Int) : List Char :=
  (if m < 0 then ['-'] else []) ++ natToDigits m.natAbs

/-- Decimal rendering of a canonical mantissa/exponent pair. -/
def stringifyNum (m : Int) (e : Nat) : List Char :=
  if e = 0 then intToDigits m
  else
    let sign : List Char := if m < 0 then ['-'] else []
    let ds := natToDigits m.natAbs
    let padded := List.replicate (e + 1 - ds.length) '0' ++ ds
    sign ++ padded.take (padded.length - e) ++ '.' :: padded.drop (padded.length - e)

mutual

/-- `JSON.stringify` (no indentation, as called by the source). -/
def jsonStringify : JValue → List Char
  | jnull => "null".data
  | jnan => "null".data
  | jbool true => "true".data
  | jbool false => "false".data
  | jnum m e => stringifyNum m e
  | jstr s => stringifyStr s
  | jarr [] => "[]".data
  | jarr (v :: vs) => '[' :: (jsonStringify v ++ jsonStringifyElems vs) ++ [']']
  | jobj [] => "\x7b\x7d".data
  | jobj (f :: fs) =>
    '\x7b' :: (stringifyStr f.1 ++ ':' :: jsonStringify f.2 ++ jsonStringifyFields fs) ++ ['\x7d']

def jsonStringifyElems : List JValue → List Char
  | [] => []
  | v :: vs => ',' :: jsonStringify v ++ jsonStringifyElems vs

def jsonStringifyFields : List (String × JValue) → List Char
  | [] => []
  | f :: fs => ',' :: stringifyStr f.1 ++ ':' :: jsonStringify f.2 ++ jsonStringifyFields fs

end

/-- One step of the `/\{[^}]*\}/g` scan, as a left fold over the text:
the state is the groups found so far plus the reversed chars of a group
currently open. -/
def bgStep : List (List Char) × Option (List Char) → Char → List (List Char) × Option (List Char)
  | (done, none), c => if c = '\x7b' then (done, some [c]) else (done, none)
  | (done, some acc), c =>
    if c = '\x7d' then (done ++ [acc.reverse ++ ['\x7d']], none)
    else (done, some (c :: acc))

def braceGroups (l : List Char) : List (List Char) :=
  (l.foldl bgStep ([], none)).1

def labelQuote (c : Char) : Bool := c = '"' || c = '\x27'

/-- Anchored attempt of `/["']?label["']?\s*:\s*["']([^"']+)["']/`
(the optional quotes and the greedy capture are deterministic: giving
characters back can only move a mismatching character under a
single-character requirement). -/
def tryLabelCap (g : List Char) : Option (List Char) :=
  let afterKw : Option (List Char) :=
    match g with
    | [] => none
    | c :: r =>
      if labelQuote c then
        if startsWithL ("label".data) r then some (r.drop 5) else none
      else if startsWithL ("label".data) g then some (g.drop 5)
      else none
  match afterKw with
  | none => none
  | some t =>
    let t1 := match t with
      | q :: r => if labelQuote q then r else t
      | [] => t
    let t2 := t1.dropWhile jsWs
    if startsWithL [':'] t2 then
      match (t2.drop 1).dropWhile jsWs with
      | q :: r3 =>
        if labelQuote q then
          let body := r3.takeWhile fun c => !labelQuote c
          if body.isEmpty then none
          else
            match r3.drop body.length with
            | [] => none
            | _ :: _ => some body
        else none
      | [] => none
    else none

def findLabelCap : List Char → Option (List Char)
  | [] => none
  | c :: cs =>
    match tryLabelCap (c :: cs) with
    | some b => some b
    | none => findLabelCap cs

def numDotChar (c : Char) : Bool := c.isDigit || c = '.'

/-- Anchored attempt of `/["']?value["']?\s*:\s*([0-9.]+)/`. -/
def tryValueCap (g : List Char) : Option (List Char) :=
  let afterKw : Option (List Char) :=
    match g with
    | [] => none
    | c :: r =>
      if labelQuote c then
        if startsWithL ("value".data) r then some (r.drop 5) else none
      else if startsWithL ("value".data) g then some (g.drop 5)
      else none
  match afterKw with
  | none => none
  | some t =>
    let t1 := match t with
      | q :: r => if labelQuote q then r else t
      | [] => t
    let t2 := t1.dropWhile jsWs
    if startsWithL [':'] t2 then
      let cap := ((t2.drop 1).dropWhile jsWs).takeWhile numDotChar
      if cap.isEmpty then none else some cap
    else none

def findValueCap : List Char → Option (List Char)
  | [] => none
  | c :: cs =>
    match tryValueCap (c :: cs) with
    | some b => some b
    | none => findValueCap cs

/-- `parseFloat` on a `[0-9.]+` capture: longest `digits [. digits]` prefix,
`jnan` when even that is empty. -/
def parseFloatJS (l : List Char) : JValue :=
  let intd := l.takeWhile Char.isDigit
  let rest := l.drop intd.length
  let fracd := match rest with
    | '.' :: r => r.takeWhile Char.isDigit
    | _ => []
  if intd.isEmpty && fracd.isEmpty then jnan
  else
    let pair := normNum ((natOfDigits (intd ++ fracd) : Int)) fracd.length
    jnum pair.1 pair.2

/-- `extractSimpleDataArray` (main.ts 4085-4108). -/
def extractSimpleDataArray (ds : List Char) : List JValue :=
  (braceGroups ds).filterMap fun g =>
    match jsonParseL g with
    | some v => some v
    | none =>
      match findLabelCap g, findValueCap g with
      | some lab, some v =>
        some (jobj [("label", jstr (String.mk lab)), ("value", parseFloatJS v)])
      | _, _ => none

/-- Anchored attempt of `/(?:const|let|var)\s+NAME\s*=\s*(\[[\s\S]*?\]);?/`
for the given alternation of variable names: keyword, at least one space,
the name, `=`, and a bracketed literal captured lazily up to the first `]`. -/
def tryVarAssign (names : List (List Char)) (l : List Char) : Option (List Char) :=
  let kwLen : Option Nat :=
    if startsWithL ("const".data) l then some 5
    else if startsWithL ("let".data) l then some 3
    else if startsWithL ("var".data) l then some 3
    else none
  match kwLen with
  | none => none
  | some k =>
    let afterKw := l.drop k
    let ws := afterKw.takeWhile jsWs
    if ws.isEmpty then none
    else
      let l2 := afterKw.drop ws.length
      match names.find? fun nm => startsWithL nm l2 with
      | none => none
      | some nm =>
        let l3 := (l2.drop nm.length).dropWhile jsWs
        if startsWithL ['='] l3 then
          let r := (l3.drop 1).dropWhile jsWs
          if startsWithL ['['] r then
            let body := (r.drop 1).takeWhile fun c => c ≠ ']'
            if startsWithL [']'] ((r.drop 1).drop body.length) then
              some ('[' :: body ++ [']'])
            else none
          else none
        else none

def findVarAssign (names : List (List Char)) : List Char → Option (List Char)
  | [] => none
  | c :: cs =>
    match tryVarAssign names (c :: cs) with
    | some cap => some cap
    | none => findVarAssign names cs

/-- The lazy `\[[\s\S]*?\]` of the inline-data regex widens to the next `]`
until `\s*\)` follows; `acc` holds the reversed chars scanned since `[`. -/
def inlineCapAux : List Char → List Char → Option (List Char)
  | _, [] => none
  | acc, c :: rest =>
    if c = ']' then
      if startsWithL [')'] (rest.dropWhile jsWs) then some ('[' :: acc.reverse ++ [']'])
      else inlineCapAux (']' :: acc) rest
    else inlineCapAux (c :: acc) rest

/-- Anchored attempt of `/\.data\(\s*(\[[\s\S]*?\])\s*\)/`. -/
def tryInline (l : List Char) : Option (List Char) :=
  if startsWithL (".data(".data) l then
    let r := (l.drop 6).dropWhile jsWs
    if startsWithL ['['] r then inlineCapAux [] (r.drop 1)
    else none
  else none

def findInline : List Char → Option (List Char)
  | [] => none
  | c :: cs =>
    match tryInline (c :: cs) with
    | some cap => some cap
    | none => findInline cs

def aliasNames : List (List Char) :=
  ["events".data, "nodes".data, "tasks".data, "matrix".data]

/-- The whole data-extraction stage (main.ts 4137-4187): the `data` variable
regex, then the alias regex, strict `JSON.parse` with the permissive
`extractSimpleDataArray` fallback, and finally the inline `.data([...])`
pattern when nothing was found. -/
def extractDataArray (code : List Char) : List JValue :=
  let cap1 := match findVarAssign [("data".data)] code with
    | some cap => some cap
    | none => findVarAssign aliasNames code
  let d1 : List JValue :=
    match cap1 with
    | some cap =>
      match jsonParseL cap with
      | some (jarr es) => if es.length > 0 then es else []
      | some _ => []
      | none =>
        let simple := extractSimpleDataArray cap
        if simple.length > 0 then simple else []
    | none => []
  if d1.isEmpty then
    match findInline code with
    | some cap =>
      match jsonParseL cap with
      | some (jarr es) => es
      | some _ => []
      | none =>
        let simple := extractSimpleDataArray cap
        if simple.length > 0 then simple else []
    | none => []
  else d1

/-- The record `parseVisualizationData` returns (the inferred chart type is
stored separately into `currentVisualizationType`, not in this record). -/
structure ParsedVis where
  data : List JValue
  width : Nat
  height : Nat
  color : String

def samplePieData : List JValue :=
  [jobj [("label", jstr "Category A"), ("value", jnum 30 0)],
   jobj [("label", jstr "Category B"), ("value", jnum 45 0)],
   jobj [("label", jstr "Category C"), ("value", jnum 25 0)]]

def sampleBarData : List JValue :=
  [jobj [("label", jstr "A"), ("value", jnum 30 0)],
   jobj [("label", jstr "B"), ("value", jnum 80 0)],
   jobj [("label", jstr "C"), ("value", jnum 45 0)],
   jobj [("label", jstr "D"), ("value", jnum 60 0)]]

/-- The guarded body of `parseVisualizationData`: style regexes, the data
stage, the chart-type cascade, and the sample-data substitution.  Every step
is total, so the body never reaches the surrounding `catch`. -/
def parseVisualizationDataE (source : String) : Except String ParsedVis :=
  let sp := extractStyleParams source
  let d := extractDataArray source.data
  let t := inferChartType source
  let dataFinal :=
    if d.isEmpty then (if t = "pie-chart" then samplePieData else sampleBarData) else d
  Except.ok { data := dataFinal, width := sp.width, height := sp.height, color := sp.color }

/-- The hard-coded fallback of the `catch` branch (main.ts 4258-4272). -/
def fallbackParsed : ParsedVis :=
  { data := sampleBarData, width := 600, height := 400, color := "steelblue" }

def parseVisualizationData (source : String) : ParsedVis :=
  match parseVisualizationDataE source with
  | Except.ok r => r
  | Except.error _ => fallbackParsed

/-! ### Descriptor-side record literals

`mkRec L v` is the `{label: L, value: v}` record a descriptor carries; the
`safeLabel` hypothesis pins the family of labels for which the synthesized
literal re-reads verbatim: printable, no whitespace, none of the few
characters that the surrounding replacement regexes or the lazy
`[\s\S]*?\]` capture could react to. -/
def safeLabelChar (c : Char) : Bool :=
  32 ≤ c.toNat && !jsWs c && !(c == '"') && !(c == '\\') && !(c == ']') &&
  !(c == '\x7b') && !(c == '\x7d') && !(c == '=') && !(c == '.') &&
  !(c == 'w') && !(c == 'h') && !(c == '$')

def safeLabel (L : String) : Bool := L.data.all safeLabelChar

def mkRec (L : String) (v : Nat) : JValue :=
  jobj [("label", jstr L), ("value", jnum (v : Int) 0)]

def recsData (rs : List (String × Nat)) : List JValue := rs.map fun r => mkRec r.1 r.2

def recChars (L : String) (v : Nat) : List Char := jsonStringify (mkRec L v)

/-- The characters between the brackets of the stringified record array. -/
def recsInterior : List (String × Nat) → List Char
  | [] => []
  | [r] => recChars r.1 r.2
  | r :: rs => recChars r.1 r.2 ++ ',' :: recsInterior rs

def jsonChars (rs : List (String × Nat)) : List Char := jsonStringify (jarr (recsData rs))

/-- `const NAME = <stringified records>;`, the canonical assignment text of
the claims about data extraction. -/
def varDecl (nm : String) (rs : List (String × Nat)) : List Char :=
  ("const ").data ++ nm.data ++ (" = ").data ++ jsonChars rs ++ [';']

/-- Characters that can occur in the stringified record array between the
brackets: no whitespace, no `]`, and none of `w h . $ =` (what the
dimension/color replacement regexes would need). -/
def plainJsonChar (c : Char) : Bool :=
  !jsWs c && !(c == ']') && !(c == 'w') && !(c == 'h') && !(c == '.') &&
  !(c == '$') && !(c == '=')

/-- The explicit characters of `jsonStringify (mkRec L v)`. -/
def recCharsE (L : String) (v : Nat) : List Char :=
  '\x7b' :: '"' :: 'l' :: 'a' :: 'b' :: 'e' :: 'l' :: '"' :: ':' :: '"' ::
    (L.data ++ '"' :: ',' :: '"' :: 'v' :: 'a' :: 'l' :: 'u' :: 'e' :: '"' :: ':' ::
      (natToDigits v ++ ['\x7d']))

/-- The second record of the C7 scenario: a well-bracketed group whose
`value` field is a computed expression, not a literal. -/
def computedRec : List Char := ("\x7blabel: \x27B\x27, value: getValue()\x7d").data

/-- `const data = [<stringified record>,\x7blabel: \x27B\x27, value: getValue()\x7d];` —
one well-formed record and one record with a computed field value. -/
def mixedDecl (L : String) (v : Nat) : List Char :=
  ("const data = [").data ++ (recChars L v ++ ',' :: computedRec) ++ ("];").data

/-! ### `generateFinalCode` (main.ts 4554-4591) and the templates it
substitutes into (`getTemplates`, main.ts 607-; only the eleven templates
named by the substitutable / template-only type lists are embedded, the
claims quantify over no others). -/


def pieChartT : String :=
  "const data = [\n  \x7blabel: \x27Category A\x27, value: 30\x7d,\n  \x7blabel: \x27Category B\x27, value: 25\x7d,\n  \x7blabel: \x27Category C\x27, value: 20\x7d,\n  \x7blabel: \x27Category D\x27, value: 15\x7d,\n  \x7blabel: \x27Category E\x27, value: 10\x7d\n];\n\nconst radius = Math.min(width, height) / 2 - 20;\n\nconst svg = d3.select(container)\n  .append(\"svg\")\n  .attr(\"width\", width)\n  .attr(\"height\", height);\n\nconst g = svg.append(\"g\")\n  .attr(\"transform\", \x60translate($\x7bwidth/2\x7d,$\x7bheight/2\x7d)\x60);\n\nconst pie = d3.pie()\n  .value(d => d.value)\n  .sort(null);\n\nconst arc = d3.arc()\n  .innerRadius(0)\n  .outerRadius(radius);\n\nconst arcs = g.selectAll(\".arc\")\n  .data(pie(data))\n  .enter().append(\"g\")\n  .attr(\"class\", \"arc\");\n\narcs.append(\"path\")\n  .attr(\"d\", arc)\n  .style(\"fill\", (d, i) => utils.colors[i]);\n\narcs.append(\"text\")\n  .attr(\"transform\", d => \x60translate($\x7barc.centroid(d)\x7d)\x60)\n  .attr(\"text-anchor\", \"middle\")\n  .style(\"font-size\", \"12px\")\n  .text(d => d.data.label);"

def donutChartT : String :=
  "const data = [\n  \x7blabel: \x27Desktop\x27, value: 45\x7d,\n  \x7blabel: \x27Mobile\x27, value: 35\x7d,\n  \x7blabel: \x27Tablet\x27, value: 20\x7d\n];\n\nconst radius = Math.min(width, height) / 2 - 20;\nconst innerRadius = radius * 0.6;\n\nconst svg = d3.select(container)\n  .append(\"svg\")\n  .attr(\"width\", width)\n  .attr(\"height\", height);\n\nconst g = svg.append(\"g\")\n  .attr(\"transform\", \x60translate($\x7bwidth/2\x7d,$\x7bheight/2\x7d)\x60);\n\nconst pie = d3.pie()\n  .value(d => d.value)\n  .sort(null);\n\nconst arc = d3.arc()\n  .innerRadius(innerRadius)\n  .outerRadius(radius);\n\nconst arcs = g.selectAll(\".arc\")\n  .data(pie(data))\n  .enter().append(\"g\")\n  .attr(\"class\", \"arc\");\n\narcs.append(\"path\")\n  .attr(\"d\", arc)\n  .style(\"fill\", (d, i) => utils.colors[i]);\n\narcs.append(\"text\")\n  .attr(\"transform\", d => \x60translate($\x7barc.centroid(d)\x7d)\x60)\n  .attr(\"text-anchor\", \"middle\")\n  .style(\"font-size\", \"12px\")\n  .style(\"fill\", \"white\")\n  .text(d => d.data.label);\n\n// Center text\ng.append(\"text\")\n  .attr(\"text-anchor\", \"middle\")\n  .attr(\"dy\", \"0.35em\")\n  .style(\"font-size\", \"16px\")\n  .style(\"font-weight\", \"bold\")\n  .text(\"Total: 100%\");"








def barChartT1 : String :=
  "const data = [\n  \x7bname: \x27A\x27, value: 30\x7d,\n  \x7bname: \x27B\x27, value: 80\x7d,\n  \x7bname: \x27C\x27, value: 45\x7d,\n  \x7bname: \x27D\x27, value: 60\x7d\n];"

def barChartT2 : String :=
  "\n\nconst margin = utils.margin();\nconst innerWidth = utils.innerWidth(width, margin);\nconst innerHeight = utils.innerHeight(height, margin);\n\nconst svg = d3.select(container)\n  .append(\"svg\")\n  .attr(\"width\", width)\n  .attr(\"height\", height);\n\nconst g = svg.append(\"g\")\n  .attr(\"transform\", \x60translate($\x7bmargin.left\x7d,$\x7bmargin.top\x7d)\x60);\n\nconst x = d3.scaleBand()\n  .domain(data.map(d => d.name))\n  .range([0, innerWidth])\n  .padding(0.1);\n\ncon"

def barChartT3 : String :=
  "st y = d3.scaleLinear()\n  .domain([0, d3.max(data, d => d.value)])\n  .range([innerHeight, 0]);\n\ng.selectAll(\".bar\")\n  .data(data)\n  .enter().append(\"rect\")\n  .attr(\"class\", \"bar\")\n  .attr(\"x\", d => x(d.name))\n  .attr(\"y\", d => y(d.value))\n  .attr(\"width\", x.bandwidth())\n  .attr(\"height\", d => innerHeight - y(d.value))\n  .style(\"fill\", utils.colors[0]);\n\n// Add axes\ng.append(\"g\")\n  .attr(\"transform\", \x60translate(0,$\x7binnerHeight\x7d)\x60)\n  .call(d3.axisBottom(x));\n\ng.append(\"g\")\n  .call(d3.axisLeft(y));"

def barChartT : String := barChartT1 ++ barChartT2 ++ barChartT3

def horizontalBarT1 : String :=
  "const data = [\n  \x7bname: \x27Product A\x27, value: 30\x7d,\n  \x7bname: \x27Product B\x27, value: 80\x7d,\n  \x7bname: \x27Product C\x27, value: 45\x7d,\n  \x7bname: \x27Product D\x27, value: 60\x7d\n];"

def horizontalBarT2 : String :=
  "\n\nconst margin = utils.margin(20, 50, 30, 100);\nconst innerWidth = utils.innerWidth(width, margin);\nconst innerHeight = utils.innerHeight(height, margin);\n\nconst svg = d3.select(container)\n  .append(\"svg\")\n  .attr(\"width\", width)\n  .attr(\"height\", height);\n\nconst g = svg.append(\"g\")\n  .attr(\"transform\", \x60translate($\x7bmargin.left\x7d,$\x7bmargin.top\x7d)\x60);\n\nconst x = d3.scaleLinear()\n  .domain([0, d3.max(data, d => d.value)])\n  .range([0, innerWi"

def horizontalBarT3 : String :=
  "dth]);\n\nconst y = d3.scaleBand()\n  .domain(data.map(d => d.name))\n  .range([0, innerHeight])\n  .padding(0.1);\n\ng.selectAll(\".bar\")\n  .data(data)\n  .enter().append(\"rect\")\n  .attr(\"class\", \"bar\")\n  .attr(\"x\", 0)\n  .attr(\"y\", d => y(d.name))\n  .attr(\"width\", d => x(d.value))\n  .attr(\"height\", y.bandwidth())\n  .style(\"fill\", utils.colors[1]);\n\n// Add axes\ng.append(\"g\")\n  .attr(\"transform\", \x60translate(0,$\x7binnerHeight\x7d)\x60)\n  .call(d3.axisBottom(x));\n\ng.append(\"g\")\n  .call(d3.axisLeft(y));"

def horizontalBarT : String := horizontalBarT1 ++ horizontalBarT2 ++ horizontalBarT3

def histogramT1 : String :=
  "const data = d3.range(1000).map(d3.randomNormal(50, 15));\n\nconst margin = utils.margin();\nconst innerWidth = utils.innerWidth(width, margin);\nconst innerHeight = utils.innerHeight(height, margin);\n\nconst svg = d3.select(container)\n  .append(\"svg\")\n  .attr(\"width\", width)\n  .attr(\"height\", height);\n\nconst g = svg.append(\"g\")\n  .attr(\"transform\", \x60translate($\x7bmargin.left\x7d,$\x7bmargin.top\x7d)"

def histogramT2 : String :=
  "\x60);\n\nconst x = d3.scaleLinear()\n  .domain(d3.extent(data))\n  .range([0, innerWidth]);\n\nconst histogram = d3.histogram()\n  .value(d => d)\n  .domain(x.domain())\n  .thresholds(x.ticks(20));\n\nconst bins = histogram(data);\n\nconst y = d3.scaleLinear()\n  .domain([0, d3.max(bins, d => d.length)])\n  .range([innerHeight, 0]);\n\ng.selectAll(\".bar\")\n  .data(bins)\n  .enter().append(\"rect\")\n  .attr("

def histogramT3 : String :=
  "\"class\", \"bar\")\n  .attr(\"x\", d => x(d.x0))\n  .attr(\"y\", d => y(d.length))\n  .attr(\"width\", d => Math.max(0, x(d.x1) - x(d.x0) - 1))\n  .attr(\"height\", d => innerHeight - y(d.length))\n  .style(\"fill\", utils.colors[4])\n  .style(\"opacity\", 0.8);\n\n// Add axes\ng.append(\"g\")\n  .attr(\"transform\", \x60translate(0,$\x7binnerHeight\x7d)\x60)\n  .call(d3.axisBottom(x));\n\ng.append(\"g\")\n  .call(d3.axisLeft(y));"

def histogramT : String := histogramT1 ++ histogramT2 ++ histogramT3

def heatmapT1 : String :=
  "const data = [];\nfor (let i = 0; i < 10; i++) \x7b\n  for (let j = 0; j < 8; j++) \x7b\n    data.push(\x7b\n      row: i,\n      col: j,\n      value: Math.random()\n    \x7d);\n  \x7d\n\x7d\n\nconst margin = utils.margin(50, 20, 50, 50);\nconst innerWidth = utils.innerWidth(width, margin);\nconst innerHeight = utils.innerHeight(height, margin);\n\nconst svg = d3.select(container)\n  .append(\"svg\")\n  .attr(\"width\", width)\n  .attr(\"height\", "

def heatmapT2 : String :=
  "height);\n\nconst g = svg.append(\"g\")\n  .attr(\"transform\", \x60translate($\x7bmargin.left\x7d,$\x7bmargin.top\x7d)\x60);\n\nconst cellWidth = innerWidth / 8;\nconst cellHeight = innerHeight / 10;\n\nconst colorScale = d3.scaleSequential(d3.interpolateBlues)\n  .domain([0, 1]);\n\ng.selectAll(\".cell\")\n  .data(data)\n  .enter().append(\"rect\")\n  .attr(\"class\", \"cell\")\n  .attr(\"x\", d => d.col * cellWidth)\n  .attr(\"y\", d => d.row * cellHeigh"

def heatmapT3 : String :=
  "t)\n  .attr(\"width\", cellWidth - 1)\n  .attr(\"height\", cellHeight - 1)\n  .style(\"fill\", d => colorScale(d.value))\n  .style(\"stroke\", \"white\")\n  .style(\"stroke-width\", 1);\n\n// Add labels\nconst xLabels = [\x27A\x27, \x27B\x27, \x27C\x27, \x27D\x27, \x27E\x27, \x27F\x27, \x27G\x27, \x27H\x27];\nconst yLabels = d3.range(10).map(i => \x60Row $\x7bi+1\x7d\x60);\n\ng.selectAll(\".col-label\")\n  .data(xLabels)\n  .enter().append(\"text\")\n  .attr(\"class\", \"col-label\")\n  .attr(\"x\", (d"

def heatmapT4 : String :=
  ", i) => i * cellWidth + cellWidth / 2)\n  .attr(\"y\", -10)\n  .attr(\"text-anchor\", \"middle\")\n  .style(\"font-size\", \"12px\")\n  .text(d => d);\n\ng.selectAll(\".row-label\")\n  .data(yLabels)\n  .enter().append(\"text\")\n  .attr(\"class\", \"row-label\")\n  .attr(\"x\", -10)\n  .attr(\"y\", (d, i) => i * cellHeight + cellHeight / 2)\n  .attr(\"text-anchor\", \"end\")\n  .attr(\"dy\", \"0.35em\")\n  .style(\"font-size\", \"12px\")\n  .text(d => d);"

def heatmapT : String := heatmapT1 ++ heatmapT2 ++ heatmapT3 ++ heatmapT4

def timelineT1 : String :=
  "const events = [\n  \x7bdate: \"2023-01\", event: \"Project Started\", type: \"milestone\"\x7d,\n  \x7bdate: \"2023-03\", event: \"Phase 1 Complete\", type: \"milestone\"\x7d,\n  \x7bdate: \"2023-05\", event: \"Beta Release\", type: \"release\"\x7d,\n  \x7bdate: \"2023-07\", event: \"User Testing\", type: \"testing\"\x7d,\n  \x7bdate: \"2023-09\", event: \"Final Release\", type: \"release\"\x7d,\n  \x7bdate: \"2023-11\", event: \"Project End\", type: \"milestone\"\x7d\n];\n\nconst parseTime = d3.timeParse(\"%Y-%m\");\nevents.for"

def timelineT2 : String :=
  "Each(d => d.parsedDate = parseTime(d.date));\n\nconst margin = utils.margin(50, 50, 50, 50);\nconst innerWidth = utils.innerWidth(width, margin);\nconst innerHeight = utils.innerHeight(height, margin);\n\nconst svg = d3.select(container)\n  .append(\"svg\")\n  .attr(\"width\", width)\n  .attr(\"height\", height);\n\nconst g = svg.append(\"g\")\n  .attr(\"transform\", \x60translate($\x7bmargin.left\x7d,$\x7bmargin.top\x7d)\x60);\n\nconst x = d3.scaleTime()\n  .domain(d3.extent(events, d => d.parsedDate))\n  .range([0, innerWidth]);\n\nconst colorScale = d3.scaleOrdinal()\n  .domain([\"milestone\", \"release\", \"testing\"])\n  .range(["

def timelineT3 : String :=
  "utils.colors[0]"

def timelineT4 : String :=
  ", utils.colors[1], utils.colors[2]]);\n\n// Timeline line\ng.append(\"line\")\n  .attr(\"x1\", 0)\n  .attr(\"x2\", innerWidth)\n  .attr(\"y1\", innerHeight / 2)\n  .attr(\"y2\", innerHeight / 2)\n  .style(\"stroke\", \"#999\")\n  .style(\"stroke-width\", 3);\n\n// Event points\ng.selectAll(\".event\")\n  .data(events)\n  .enter().append(\"circle\")\n  .attr(\"class\", \"event\")\n  .attr(\"cx\", d => x(d.parsedDate))\n  .attr(\"cy\", innerHeight / "

def timelineT5 : String :=
  "2)\n  .attr(\"r\", 8)\n  .style(\"fill\", d => colorScale(d.type))\n  .style(\"stroke\", \"white\")\n  .style(\"stroke-width\", 3);\n\n// Event labels\ng.selectAll(\".label\")\n  .data(events)\n  .enter().append(\"text\")\n  .attr(\"class\", \"label\")\n  .attr(\"x\", d => x(d.parsedDate))\n  .attr(\"y\", (d, i) => i % 2 === 0 ? innerHeight / 2 - 20 : innerHeight / 2 + 35)\n  .attr(\"text-anchor\", \"middle\")\n  .style(\"font-size\", \"12"

def timelineT6 : String :=
  "px\")\n  .text(d => d.event);\n\n// Date labels\ng.selectAll(\".date\")\n  .data(events)\n  .enter().append(\"text\")\n  .attr(\"class\", \"date\")\n  .attr(\"x\", d => x(d.parsedDate))\n  .attr(\"y\", (d, i) => i % 2 === 0 ? innerHeight / 2 - 35 : innerHeight / 2 + 50)\n  .attr(\"text-anchor\", \"middle\")\n  .style(\"font-size\", \"10px\")\n  .style(\"fill\", \"#666\")\n  .text(d => d.date);"

def timelineT : String := timelineT1 ++ timelineT2 ++ timelineT3 ++ timelineT4 ++ timelineT5 ++ timelineT6

def radarT1 : String :=
  "const data = [\n  \x7baxis: \"Speed\", value: 0.8\x7d,\n  \x7baxis: \"Reliability\", value: 0.6\x7d,\n  \x7baxis: \"Comfort\", value: 0.9\x7d,\n  \x7baxis: \"Safety\", value: 0.7\x7d,\n  \x7baxis: \"Efficiency\", value: 0.5\x7d,\n  \x7baxis: \"Price\", value: 0.3\x7d\n];\n\nconst cfg = \x7b\n  radius: Math.min(width, height) / 2 - 50,\n  levels: 5,\n  maxValue: 1\n\x7d;\n\nconst svg = d3.select(container)\n  .append(\"svg\")\n  .attr(\"width\", width)\n  .attr(\"height\", "

def radarT2 : String :=
  "height);\n\nconst g = svg.append(\"g\")\n  .attr(\"transform\", \x60translate($\x7bwidth/2\x7d,$\x7bheight/2\x7d)\x60);\n\nconst angleSlice = Math.PI * 2 / data.length;\n\n// Create the background circles\nfor (let j = 0; j < cfg.levels; j++) \x7b\n  const levelFactor = cfg.radius * ((j + 1) / cfg.levels);\n  \n  g.append(\"circle\")\n    .attr(\"r\", levelFactor)\n    .style(\"fill\", \"none\")\n    .style(\"stroke\", \"#CDCDCD\")\n    .style(\"st"

def radarT3 : String :=
  "roke-width\", \"1px\")\n    .style(\"stroke-dasharray\", \"3,3\");\n\x7d\n\n// Create the axes\nconst axes = g.selectAll(\".axis\")\n  .data(data)\n  .enter().append(\"g\")\n  .attr(\"class\", \"axis\");\n\naxes.append(\"line\")\n  .attr(\"x1\", 0)\n  .attr(\"y1\", 0)\n  .attr(\"x2\", (d, i) => cfg.radius * Math.cos(angleSlice * i - Math.PI / 2))\n  .attr(\"y2\", (d, i) => cfg.radius * Math.sin(angleSlice * i - Math.PI / 2))\n  .style(\"s"

def radarT4 : String :=
  "troke\", \"#999\")\n  .style(\"stroke-width\", \"2px\");\n\n// Add axis labels\naxes.append(\"text\")\n  .attr(\"x\", (d, i) => (cfg.radius + 20) * Math.cos(angleSlice * i - Math.PI / 2))\n  .attr(\"y\", (d, i) => (cfg.radius + 20) * Math.sin(angleSlice * i - Math.PI / 2))\n  .attr(\"dy\", \"0.35em\")\n  .attr(\"text-anchor\", \"middle\")\n  .style(\"font-size\", \"12px\")\n  .text(d => d.axis);\n\n// Create the radar line\nconst rad"

def radarT5 : String :=
  "arLine = d3.lineRadial()\n  .angle((d, i) => i * angleSlice)\n  .radius(d => cfg.radius * (d.value / cfg.maxValue))\n  .curve(d3.curveLinearClosed);\n\nconst radarPath = g.append(\"path\")\n  .datum(data)\n  .attr(\"d\", radarLine)\n  .style(\"fill\", utils.colors[0])\n  .style(\"fill-opacity\", 0.3)\n  .style(\"stroke\", utils.colors[0])\n  .style(\"stroke-width\", \"2px\");\n\n// Add the data points\ng.selectAll(\".radar-p"

def radarT6 : String :=
  "oint\")\n  .data(data)\n  .enter().append(\"circle\")\n  .attr(\"class\", \"radar-point\")\n  .attr(\"cx\", (d, i) => cfg.radius * (d.value / cfg.maxValue) * Math.cos(angleSlice * i - Math.PI / 2))\n  .attr(\"cy\", (d, i) => cfg.radius * (d.value / cfg.maxValue) * Math.sin(angleSlice * i - Math.PI / 2))\n  .attr(\"r\", 4)\n  .style(\"fill\", utils.colors[0])\n  .style(\"stroke\", \"white\")\n  .style(\"stroke-width\", \"2px\");"

def radarT : String := radarT1 ++ radarT2 ++ radarT3 ++ radarT4 ++ radarT5 ++ radarT6

def boxPlotT1 : String :=
  "const data = [\n  \x7bcategory: \x27A\x27, values: d3.range(100).map(() => d3.randomNormal(50, 15)())\x7d,\n  \x7bcategory: \x27B\x27, values: d3.range(100).map(() => d3.randomNormal(60, 20)())\x7d,\n  \x7bcategory: \x27C\x27, values: d3.range(100).map(() => d3.randomNormal(40, 10)())\x7d,\n  \x7bcategory: \x27D\x27, values: d3.range(100).map(() => d3.randomNormal(70, 25)())\x7d\n];\n\nconst margin = utils.margin();\nconst innerWidth = ut"

def boxPlotT2 : String :=
  "ils.innerWidth(width, margin);\nconst innerHeight = utils.innerHeight(height, margin);\n\nconst svg = d3.select(container)\n  .append(\"svg\")\n  .attr(\"width\", width)\n  .attr(\"height\", height);\n\nconst g = svg.append(\"g\")\n  .attr(\"transform\", \x60translate($\x7bmargin.left\x7d,$\x7bmargin.top\x7d)\x60);\n\nconst x = d3.scaleBand()\n  .domain(data.map(d => d.category))\n  .range([0, innerWidth])\n  .padding(0.3);\n\n"

def boxPlotT3 : String :=
  "const allValues = data.flatMap(d => d.values);\nconst y = d3.scaleLinear()\n  .domain(d3.extent(allValues))\n  .range([innerHeight, 0]);\n\n// Calculate quartiles for each category\nconst processedData = data.map(d => \x7b\n  const sorted = d.values.sort(d3.ascending);\n  const q1 = d3.quantile(sorted, 0.25);\n  const median = d3.quantile(sorted, 0.5);\n  const q3 = d3.quantile(sorted, 0.75);\n  c"

def boxPlotT4 : String :=
  "onst iqr = q3 - q1;\n  const min = Math.max(d3.min(sorted), q1 - 1.5 * iqr);\n  const max = Math.min(d3.max(sorted), q3 + 1.5 * iqr);\n  \n  return \x7b\n    category: d.category,\n    q1: q1,\n    median: median,\n    q3: q3,\n    min: min,\n    max: max\n  \x7d;\n\x7d);\n\nconst boxWidth = x.bandwidth() * 0.7;\n\nprocessedData.forEach(d => \x7b\n  const centerX = x(d.category) + x.bandwidth() / 2;\n  \n  // Whisk"

def boxPlotT5 : String :=
  "ers\n  g.append(\"line\")\n    .attr(\"x1\", centerX)\n    .attr(\"x2\", centerX)\n    .attr(\"y1\", y(d.min))\n    .attr(\"y2\", y(d.max))\n    .style(\"stroke\", \"#666\")\n    .style(\"stroke-width\", 1);\n  \n  // Min/Max lines\n  [d.min, d.max].forEach(value => \x7b\n    g.append(\"line\")\n      .attr(\"x1\", centerX - boxWidth / 4)\n      .attr(\"x2\", centerX + boxWidth / 4)\n      .attr(\"y1\", y(value))\n      .att"

def boxPlotT6 : String :=
  "r(\"y2\", y(value))\n      .style(\"stroke\", \"#666\")\n      .style(\"stroke-width\", 1);\n  \x7d);\n  \n  // Box\n  g.append(\"rect\")\n    .attr(\"x\", centerX - boxWidth / 2)\n    .attr(\"y\", y(d.q3))\n    .attr(\"width\", boxWidth)\n    .attr(\"height\", y(d.q1) - y(d.q3))\n    .style(\"fill\", utils.colors[0])\n    .style(\"fill-opacity\", 0.7)\n    .style(\"stroke\", utils.colors[0])\n    .style(\"stroke-width\", 2);\n"

def boxPlotT7 : String :=
  "  \n  // Median line\n  g.append(\"line\")\n    .attr(\"x1\", centerX - boxWidth / 2)\n    .attr(\"x2\", centerX + boxWidth / 2)\n    .attr(\"y1\", y(d.median))\n    .attr(\"y2\", y(d.median))\n    .style(\"stroke\", \"#000\")\n    .style(\"stroke-width\", 2);\n\x7d);\n\n// Add axes\ng.append(\"g\")\n  .attr(\"transform\", \x60translate(0,$\x7binnerHeight\x7d)\x60)\n  .call(d3.axisBottom(x));\n\ng.append(\"g\")\n  .call(d3.axisLeft(y));"

def boxPlotT : String := boxPlotT1 ++ boxPlotT2 ++ boxPlotT3 ++ boxPlotT4 ++ boxPlotT5 ++ boxPlotT6 ++ boxPlotT7

def bubbleChartT1 : String :=
  "const data = d3.range(30).map(() => (\x7b\n  x: Math.random() * 100,\n  y: Math.random() * 100,\n  size: Math.random() * 50 + 10,\n  category: Math.floor(Math.random() * 4)\n\x7d));\n\nconst margin = utils.margin();\nconst innerWidth = utils.innerWidth(width, margin);\nconst innerHeight = utils.innerHeight(height, margin);\n\nconst svg = d3.select(container)\n  .append(\"svg\")\n  .attr(\"width\", width)\n  .attr(\"height\", "

def bubbleChartT2 : String :=
  "height);\n\nconst g = svg.append(\"g\")\n  .attr(\"transform\", \x60translate($\x7bmargin.left\x7d,$\x7bmargin.top\x7d)\x60);\n\nconst x = d3.scaleLinear()\n  .domain([0, 100])\n  .range([0, innerWidth]);\n\nconst y = d3.scaleLinear()\n  .domain([0, 100])\n  .range([innerHeight, 0]);\n\nconst sizeScale = d3.scaleSqrt()\n  .domain([0, d3.max(data, d => d.size)])\n  .range([3, 20]);\n\ng.selectAll(\".bubble\")\n  .data(data)\n  .enter().append("

def bubbleChartT3 : String :=
  "\"circle\")\n  .attr(\"class\", \"bubble\")\n  .attr(\"cx\", d => x(d.x))\n  .attr(\"cy\", d => y(d.y))\n  .attr(\"r\", d => sizeScale(d.size))\n  .style(\"fill\", d => utils.colors[d.category])\n  .style(\"opacity\", 0.7)\n  .style(\"stroke\", \"white\")\n  .style(\"stroke-width\", 1);\n\n// Add axes\ng.append(\"g\")\n  .attr(\"transform\", \x60translate(0,$\x7binnerHeight\x7d)\x60)\n  .call(d3.axisBottom(x));\n\ng.append(\"g\")\n  .call(d3.axisLeft(y));"

def bubbleChartT : String := bubbleChartT1 ++ bubbleChartT2 ++ bubbleChartT3

def stackedBarChartT1 : String :=
  "const data = [\n  \x7bcategory: \"A\", series1: 20, series2: 15, series3: 10\x7d,\n  \x7bcategory: \"B\", series1: 25, series2: 20, series3: 15\x7d,\n  \x7bcategory: \"C\", series1: 15, series2: 25, series3: 20\x7d,\n  \x7bcategory: \"D\", series1: 30, series2: 10, series3: 25\x7d\n];\n\nconst margin = utils.margin();\nconst innerWidth = width - margin.left - margin.right;\nconst innerHeight "

def stackedBarChartT2 : String :=
  "= height - margin.top - margin.bottom;\n\nconst svg = d3.select(container)\n  .append(\"svg\")\n  .attr(\"width\", width)\n  .attr(\"height\", height);\n\nconst g = svg.append(\"g\")\n  .attr(\"transform\", \x60translate($\x7bmargin.left\x7d,$\x7bmargin.top\x7d)\x60);\n\nconst keys = [\"series1\", \"series2\", \"series3\"];\n\nconst stack = d3.stack()\n  .keys(keys);\n\nconst stackedData = stack(dat"

def stackedBarChartT3 : String :=
  "a);\n\nconst x = d3.scaleBand()\n  .domain(data.map(d => d.category))\n  .range([0, innerWidth])\n  .padding(0.1);\n\nconst y = d3.scaleLinear()\n  .domain([0, d3.max(stackedData, d => d3.max(d, d => d[1]))])\n  .range([innerHeight, 0]);\n\ng.selectAll(\".serie\")\n  .data(stackedData)\n  .enter()\n  .append(\"g\")\n  .attr(\"class\", \"serie\")\n  .attr(\"fill\", (d, i) => ut"

def stackedBarChartT4 : String :=
  "ils.colors[i])\n  .selectAll(\"rect\")\n  .data(d => d)\n  .enter()\n  .append(\"rect\")\n  .attr(\"x\", d => x(d.data.category))\n  .attr(\"y\", d => y(d[1]))\n  .attr(\"height\", d => y(d[0]) - y(d[1]))\n  .attr(\"width\", x.bandwidth());\n\ng.append(\"g\")\n  .attr(\"transform\", \x60translate(0,$\x7binnerHeight\x7d)\x60)\n  .call(d3.axisBottom(x));\n\ng.append(\"g\")\n  .call(d3.axisLeft(y));"

def stackedBarChartT : String := stackedBarChartT1 ++ stackedBarChartT2 ++ stackedBarChartT3 ++ stackedBarChartT4

def templateOnlyTypes : List String :=
  ["histogram", "heatmap", "timeline", "radar", "box-plot", "bubble-chart",
    "stacked-bar-chart"]

def simpleDataTypes : List String :=
  ["bar-chart", "horizontal-bar", "pie-chart", "donut-chart"]

def getTemplates (vtype : String) : Option String :=
  if vtype = "bar-chart" then some barChartT
  else if vtype = "horizontal-bar" then some horizontalBarT
  else if vtype = "pie-chart" then some pieChartT
  else if vtype = "donut-chart" then some donutChartT
  else if vtype = "histogram" then some histogramT
  else if vtype = "heatmap" then some heatmapT
  else if vtype = "timeline" then some timelineT
  else if vtype = "radar" then some radarT
  else if vtype = "box-plot" then some boxPlotT
  else if vtype = "bubble-chart" then some bubbleChartT
  else if vtype = "stacked-bar-chart" then some stackedBarChartT
  else none

/-- Index of the first occurrence of a pattern (for the lazy `[\s\S]*?`
tails). -/
def findSubIdx (pat : List Char) : List Char → Option Nat
  | [] => if startsWithL pat [] then some 0 else none
  | c :: cs =>
    if startsWithL pat (c :: cs) then some 0
    else (findSubIdx pat cs).map fun n => n + 1

/-- Anchored attempt of `/const data = \[\s*\{[^}]*name[^}]*\}[\s\S]*?\];/`:
the literal head, optional whitespace, a brace group that must contain
`name` before its first `\x7d`, then the lazy tail up to the first `];`.
Returns the length of the whole match. -/
def tryDataDecl (l : List Char) : Option Nat :=
  if startsWithL ("const data = [").data l then
    let r1 := l.drop 14
    let ws := r1.takeWhile jsWs
    let r2 := r1.drop ws.length
    if startsWithL ['\x7b'] r2 then
      let interior := (r2.drop 1).takeWhile fun c => c ≠ '\x7d'
      let r3 := (r2.drop 1).drop interior.length
      if startsWithL ['\x7d'] r3 ∧ hasSub ("name".data) interior then
        let r4 := r3.drop 1
        match findSubIdx ("];".data) r4 with
        | some k => some (14 + ws.length + 1 + interior.length + 1 + k + 2)
        | none => none
      else none
    else none
  else none

/-- The non-global data replacement: splice at the first match. -/
def dataReplace (ds : List Char) : List Char → List Char
  | [] => []
  | c :: cs =>
    match tryDataDecl (c :: cs) with
    | some k => ("const data = ").data ++ ds ++ ';' :: ((c :: cs).drop k)
    | none => c :: dataReplace ds cs

/-- Anchored attempt of `/(?:width|height)\s*=\s*\d+/`: which keyword
matched (for the replacement callback) and the match length. -/
def tryDim (l : List Char) : Option (Bool × Nat) :=
  let kw : Option (Bool × Nat) :=
    if startsWithL ("width".data) l then some (true, 5)
    else if startsWithL ("height".data) l then some (false, 6)
    else none
  match kw with
  | none => none
  | some (b, k) =>
    let r1 := l.drop k
    let ws1 := r1.takeWhile jsWs
    let r2 := r1.drop ws1.length
    if startsWithL ['='] r2 then
      let r3 := r2.drop 1
      let ws2 := r3.takeWhile jsWs
      let digits := (r3.drop ws2.length).takeWhile Char.isDigit
      if digits.isEmpty then none
      else some (b, k + ws1.length + 1 + ws2.length + digits.length)
    else none

/-- The global dimension replacement (`match.includes('width')` picks the
replacement text), continuing after each replaced match. -/
def dimsRepF (w h : Nat) : Nat → List Char → List Char
  | 0, l => l
  | _ + 1, [] => []
  | fuel + 1, c :: cs =>
    match tryDim (c :: cs) with
    | some (true, k) => ("width = ").data ++ natToDigits w ++ dimsRepF w h fuel ((c :: cs).drop k)
    | some (false, k) => ("height = ").data ++ natToDigits h ++ dimsRepF w h fuel ((c :: cs).drop k)
    | none => c :: dimsRepF w h fuel cs

def dimsRep (w h : Nat) (l : List Char) : List Char := dimsRepF w h l.length l

/-- The global literal replacement of `utils.colors[0]` by `"COLOR"`. -/
def colors0RepF (color : List Char) : Nat → List Char → List Char
  | 0, l => l
  | _ + 1, [] => []
  | fuel + 1, c :: cs =>
    if startsWithL ("utils.colors[0]").data (c :: cs) then
      '"' :: color ++ '"' :: colors0RepF color fuel ((c :: cs).drop 15)
    else c :: colors0RepF color fuel cs

def colors0Rep (color : List Char) (l : List Char) : List Char :=
  colors0RepF color l.length l

/-- Anchored attempt of `/\.style\("fill",\s*"steelblue"\)/`. -/
def trySteel (l : List Char) : Option Nat :=
  if startsWithL (".style(\"fill\",").data l then
    let r1 := l.drop 14
    let ws := r1.takeWhile jsWs
    if startsWithL ("\"steelblue\")").data (r1.drop ws.length) then
      some (14 + ws.length + 12)
    else none
  else none

/-- The global replacement of the steelblue fill by `.style("fill", "COLOR")`. -/
def steelRepF (color : List Char) : Nat → List Char → List Char
  | 0, l => l
  | _ + 1, [] => []
  | fuel + 1, c :: cs =>
    match trySteel (c :: cs) with
    | some k =>
      (".style(\"fill\", \"").data ++ color ++ '"' :: ')' ::
        steelRepF color fuel ((c :: cs).drop k)
    | none => c :: steelRepF color fuel cs

def steelRep (color : List Char) (l : List Char) : List Char :=
  steelRepF color l.length l

/-- `generateFinalCode` (main.ts 4554-4591): the `||` defaults, the data
substitution for non-template-only types of the simple-data list with
non-empty data, the global dimension replacement, and — for `#` colors —
the `utils.colors[0]` and steelblue-fill replacements.  `none` stands for
the types without a stored template (their custom-generation fallback is
outside every claim). -/
def generateFinalCode (vtype : String) (pd : ParsedVis) : Option (List Char) :=
  let w := if pd.width = 0 then 600 else pd.width
  let h := if pd.height = 0 then 400 else pd.height
  let color := if pd.color = "" then "steelblue" else pd.color
  (getTemplates vtype).map fun tmpl =>
    let t1 :=
      if templateOnlyTypes.contains vtype = false ∧ 0 < pd.data.length ∧
          simpleDataTypes.contains vtype = true then
        dataReplace (jsonStringify (jarr pd.data)) tmpl.data
      else tmpl.data
    let t2 := dimsRep w h t1
    if startsWithL ("#".data) color.data then
      steelRep color.data (colors0Rep color.data t2)
    else t2

/-- Position-by-position check that an anchored matcher finds nothing in
the first `n` positions of a text (the decidable side condition of the
replacement-splitting lemmas). -/
def scanNone (p : List Char → Bool) : Nat → List Char → Bool
  | 0, _ => true
  | _ + 1, [] => true
  | n + 1, c :: cs => p (c :: cs) && scanNone p n cs

/-! ### Theorems -/

/-- Both branches of an `ite` land in `l`, hence so does the `ite`. -/
theorem mem_ite {α : Type} {p : Prop} [Decidable p] {a b : α} {l : List α}
    (ha : a ∈ l) (hb : b ∈ l) : (if p then a else b) ∈ l := by
  split
  · exact ha
  · exact hb

/-- C4: the inference always lands in the closed tag set, and when no keyword
predicate and no shape heuristic matches, it returns the fallback
`"bar-chart"`. -/
theorem inferChartType_total_and_default :
    (∀ c : String, inferChartType c ∈ chartTypeTags) ∧
    (∀ c : String, anyTypePredicate c = false → inferChartType c = "bar-chart") := by
  constructor
  · intro c
    unfold inferChartType
    repeat (first | apply mem_ite | decide)
  · intro c h
    simp only [anyTypePredicate, Bool.or_eq_false_iff] at h
    obtain ⟨⟨⟨⟨⟨⟨⟨⟨⟨⟨⟨⟨⟨⟨⟨⟨h1, h2⟩, h3⟩, h4⟩, h5⟩, h6⟩, h7⟩, h8⟩, h9⟩, h10⟩,
      h11⟩, h12⟩, h13⟩, h14⟩, h15⟩, h16⟩, h17⟩ := h
    simp [inferChartType, h1, h2, h3, h4, h5, h6, h7, h8, h9, h10,
      h11, h12, h13, h14, h15, h16, h17]

/-- Witness for C4 at the empty string. -/
theorem inferChartType_total_and_default_witness :
    inferChartType "" = "bar-chart" :=
  inferChartType_total_and_default.2 "" (by decide)

/-- C5: the donut combination (`innerRadius` together with `d3.pie`) is decided
before the general pie keywords, so any text containing both yields
`donut-chart`; the stacking keywords are decided before the generic bar
keywords, so a text containing both `stacked` and `scaleBand` on which no
earlier predicate of the cascade fires yields `stacked-bar-chart`. -/
theorem inferChartType_priority_order :
    (∀ c : String, includesS c "innerRadius" = true → includesS c "d3.pie" = true →
      inferChartType c = "donut-chart") ∧
    (∀ c : String, includesS c "stacked" = true → includesS c "scaleBand" = true →
      condDonut c = false → condPie c = false → condHistogram c = false →
      condHeatmap c = false → condTimeline c = false → condRadar c = false →
      condBoxPlot c = false → condBubble c = false →
      inferChartType c = "stacked-bar-chart") := by
  constructor
  · intro c h1 h2
    have hd : condDonut c = true := by simp [condDonut, h1, h2]
    simp [inferChartType, hd]
  · intro c hst _hsb h1 h2 h3 h4 h5 h6 h7 h8
    have hs : condStacked c = true := by simp [condStacked, hst]
    simp [inferChartType, h1, h2, h3, h4, h5, h6, h7, h8, hs]

/-- Witness for C5: both priority examples at concrete texts. -/
theorem inferChartType_priority_order_witness :
    inferChartType "innerRadius d3.pie" = "donut-chart" ∧
    inferChartType "stacked scaleBand" = "stacked-bar-chart" :=
  ⟨inferChartType_priority_order.1 "innerRadius d3.pie" (by decide) (by decide),
   inferChartType_priority_order.2 "stacked scaleBand" (by decide) (by decide)
     (by decide) (by decide) (by decide) (by decide) (by decide) (by decide)
     (by decide) (by decide)⟩

/-- C10: a text containing the substring `events` on which none of the earlier
predicates (donut, pie, histogram, heatmap) fires is classified `timeline`,
because `events` is one of the alternatives of the timeline predicate. -/
theorem inferChartType_events_timeline :
    ∀ c : String, includesS c "events" = true →
      condDonut c = false → condPie c = false → condHistogram c = false →
      condHeatmap c = false → inferChartType c = "timeline" := by
  intro c hev h1 h2 h3 h4
  have ht : condTimeline c = true := by simp [condTimeline, hev]
  simp [inferChartType, h1, h2, h3, h4, ht]

/-- Witness for C10: a text that assigns its data to the alias `events`. -/
theorem inferChartType_events_timeline_witness :
    inferChartType "const events = [1, 2]" = "timeline" :=
  inferChartType_events_timeline "const events = [1, 2]" (by decide) (by decide)
    (by decide) (by decide) (by decide)

/-- C8: the documented example extracts width 800, height 300 and color
`red`; and whenever none of the three patterns occurs the fixed defaults
`600 / 400 / steelblue` are returned, each independently. -/
theorem extractStyleParams_example_and_defaults :
    extractStyleParams "width: 800, height: 300, fill: \x27red\x27" =
      ⟨800, 300, "red"⟩ ∧
    (∀ c : String, findKwNum ("width".data) c.data = none →
      findKwNum ("height".data) c.data = none → findColorStr c.data = none →
      extractStyleParams c = ⟨600, 400, "steelblue"⟩) := by
  constructor
  · decide
  · intro c hw hh hc
    simp [extractStyleParams, hw, hh, hc]

/-- Witness for C8's default clause on a pattern-free text. -/
theorem extractStyleParams_example_and_defaults_witness :
    extractStyleParams "no style here" = ⟨600, 400, "steelblue"⟩ :=
  extractStyleParams_example_and_defaults.2 "no style here"
    (by decide) (by decide) (by decide)

/-- C3: the guarded body succeeds on every input (no exception ever reaches
the caller), and the `catch` fallback is the fixed descriptor with sample
records A:30, B:80, C:45, D:60, width 600, height 400 and color
`steelblue`. -/
theorem parseVisualizationData_never_throws :
    (∀ s : String, parseVisualizationDataE s = Except.ok (parseVisualizationData s)) ∧
    fallbackParsed =
      { data := [jobj [("label", jstr "A"), ("value", jnum 30 0)],
                 jobj [("label", jstr "B"), ("value", jnum 80 0)],
                 jobj [("label", jstr "C"), ("value", jnum 45 0)],
                 jobj [("label", jstr "D"), ("value", jnum 60 0)]],
        width := 600, height := 400, color := "steelblue" } :=
  ⟨fun _ => rfl, rfl⟩

/-- C9: the returned data array is never empty; when the extraction stage
yields nothing, the fixed sample data for the inferred chart type is
substituted (three records for `pie-chart`, otherwise the four records
A:30, B:80, C:45, D:60). -/
theorem parseVisualizationData_data_nonempty :
    ∀ s : String, (parseVisualizationData s).data ≠ [] ∧
      (extractDataArray s.data = [] →
        (parseVisualizationData s).data =
          if inferChartType s = "pie-chart" then samplePieData else sampleBarData) := by
  intro s
  have hshape : (parseVisualizationData s).data =
      (if (extractDataArray s.data).isEmpty then
        (if inferChartType s = "pie-chart" then samplePieData else sampleBarData)
      else extractDataArray s.data) := rfl
  constructor
  · rw [hshape]
    cases hd : extractDataArray s.data with
    | nil =>
      simp only [hd, List.isEmpty_nil, if_true]
      split
      · simp [samplePieData]
      · simp [sampleBarData]
    | cons a as => simp [hd]
  · intro hempty
    rw [hshape, hempty]
    rfl

/-- Witness for C9 at the empty source text. -/
theorem parseVisualizationData_data_nonempty_witness :
    (parseVisualizationData "").data = sampleBarData :=
  ((parseVisualizationData_data_nonempty "").2 rfl).trans rfl

/-! ### Small list facts used by the scanner lemmas -/
theorem takeWhile_all_append {p : Char → Bool} {l : List Char} (x : Char) (r : List Char)
    (hl : ∀ c ∈ l, p c = true) (hx : p x = false) :
    (l ++ x :: r).takeWhile p = l := by
  induction l with
  | nil => simp [List.takeWhile, hx]
  | cons a as ih =>
    have ha : p a = true := hl a (by simp)
    simp only [List.cons_append, List.takeWhile_cons, ha, if_true]
    rw [ih fun c hc => hl c (by simp [hc])]

theorem drop_len_append {l r : List Char} : (l ++ r).drop l.length = r := by
  simp

theorem dropWhile_all_append {p : Char → Bool} {l : List Char} (x : Char) (r : List Char)
    (hl : ∀ c ∈ l, p c = true) (hx : p x = false) :
    (l ++ x :: r).dropWhile p = x :: r := by
  induction l with
  | nil => simp [List.dropWhile, hx]
  | cons a as ih =>
    have ha : p a = true := hl a (by simp)
    simp only [List.cons_append, List.dropWhile_cons, ha, if_true]
    exact ih fun c hc => hl c (by simp [hc])

/-! ### Digits -/
theorem digitChar_isDigit {d : Nat} (h : d < 10) : (digitChar d).isDigit = true := by
  interval_cases d <;> decide

theorem digitChar_toNat {d : Nat} (h : d < 10) : (digitChar d).toNat = 48 + d := by
  interval_cases d <;> decide

theorem digitChar_plain {d : Nat} (h : d < 10) : plainJsonChar (digitChar d) = true := by
  interval_cases d <;> decide

theorem digitChar_safe {d : Nat} (h : d < 10) : safeLabelChar (digitChar d) = true := by
  interval_cases d <;> decide

theorem natOfDigits_append (l : List Char) (c : Char) :
    natOfDigits (l ++ [c]) = natOfDigits l * 10 + (c.toNat - 48) := by
  simp [natOfDigits, List.foldl_append]

theorem natToDigitsAux_spec :
    ∀ fuel n, n < fuel →
      natOfDigits (natToDigitsAux fuel n) = n ∧
      (∀ c ∈ natToDigitsAux fuel n, ∃ d, d < 10 ∧ c = digitChar d) ∧
      natToDigitsAux fuel n ≠ [] := by
  intro fuel
  induction fuel with
  | zero => omega
  | succ f ih =>
    intro n hn
    by_cases h10 : n < 10
    · refine ⟨?_, ?_, ?_⟩
      · simp [natToDigitsAux, h10, natOfDigits, digitChar_toNat h10]
      · simp only [natToDigitsAux, h10, if_true]
        intro c hc
        simp at hc
        exact ⟨n, h10, hc⟩
      · simp [natToDigitsAux, h10]
    · have hdiv : n / 10 < f := by
        have := Nat.div_lt_self (by omega : 0 < n) (by omega : 1 < 10)
        omega
      obtain ⟨ihv, ihd, ihne⟩ := ih (n / 10) hdiv
      have hmod : n % 10 < 10 := Nat.mod_lt _ (by omega)
      refine ⟨?_, ?_, ?_⟩
      · simp only [natToDigitsAux, h10, if_false]
        rw [natOfDigits_append, ihv, digitChar_toNat hmod]
        omega
      · simp only [natToDigitsAux, h10, if_false]
        intro c hc
        rcases List.mem_append.1 hc with hc | hc
        · exact ihd c hc
        · simp at hc
          exact ⟨n % 10, hmod, hc⟩
      · simp [natToDigitsAux, h10]

theorem natToDigits_val (n : Nat) : natOfDigits (natToDigits n) = n :=
  (natToDigitsAux_spec (n + 1) n (by omega)).1

theorem natToDigits_digits (n : Nat) :
    ∀ c ∈ natToDigits n, ∃ d, d < 10 ∧ c = digitChar d :=
  (natToDigitsAux_spec (n + 1) n (by omega)).2.1

theorem natToDigits_ne_nil (n : Nat) : natToDigits n ≠ [] :=
  (natToDigitsAux_spec (n + 1) n (by omega)).2.2

theorem natToDigitsAux_head_ne_zero :
    ∀ fuel n, n < fuel → 0 < n →
      ∀ d ds, natToDigitsAux fuel n = d :: ds → d ≠ '0' := by
  intro fuel
  induction fuel with
  | zero => omega
  | succ f ih =>
    intro n hn hpos d ds heq
    by_cases h10 : n < 10
    · simp only [natToDigitsAux, h10, if_true] at heq
      cases heq
      interval_cases n <;> simp_all <;> decide
    · simp only [natToDigitsAux, h10, if_false] at heq
      have hdiv : n / 10 < f := by
        have := Nat.div_lt_self (by omega : 0 < n) (by omega : 1 < 10)
        omega
      have hdivpos : 0 < n / 10 := by
        have := Nat.div_le_div_right (c := 10) (by omega : 10 ≤ n)
        simpa using this
      obtain ⟨e, es, hcons⟩ : ∃ e es, natToDigitsAux f (n / 10) = e :: es := by
        cases hne : natToDigitsAux f (n / 10) with
        | nil => exact absurd hne (natToDigitsAux_spec f (n / 10) hdiv).2.2
        | cons e es => exact ⟨e, es, rfl⟩
      rw [hcons] at heq
      simp at heq
      rw [← heq.1]
      exact ih (n / 10) hdiv hdivpos e es hcons

theorem natToDigits_head_ne_zero {n : Nat} (hpos : 0 < n) :
    ∀ d ds, natToDigits n = d :: ds → d ≠ '0' :=
  natToDigitsAux_head_ne_zero (n + 1) n (by omega) hpos

/-! ### Safe-label characters under escaping and string parsing -/
theorem safeLabelChar_facts {c : Char} (h : safeLabelChar c = true) :
    32 ≤ c.toNat ∧ jsWs c = false ∧ c ≠ '"' ∧ c ≠ '\\' ∧ c ≠ ']' ∧ c ≠ '\x7b' ∧
    c ≠ '\x7d' ∧ c ≠ '=' ∧ c ≠ '.' ∧ c ≠ 'w' ∧ c ≠ 'h' ∧ c ≠ '$' := by
  simp only [safeLabelChar, Bool.and_eq_true, Bool.not_eq_true', beq_eq_false_iff_ne,
    ne_eq, decide_eq_true_eq, Bool.not_eq_true] at h
  tauto

theorem safeLabelChar_plain {c : Char} (h : safeLabelChar c = true) :
    plainJsonChar c = true := by
  obtain ⟨_, hws, _, _, hrb, _, _, heq, hdot, hw, hh, hd⟩ := safeLabelChar_facts h
  simp [plainJsonChar, hws, hrb, heq, hdot, hw, hh, hd]

theorem escapeJChar_safe {c : Char} (h : safeLabelChar c = true) : escapeJChar c = [c] := by
  obtain ⟨h32, _, hq, hb, _⟩ := safeLabelChar_facts h
  have hne : ∀ x : Char, x.toNat < 32 → c ≠ x := by
    intro x hx he
    subst he
    omega
  rw [escapeJChar]
  rw [if_neg hq, if_neg hb, if_neg (hne _ (by decide)), if_neg (hne _ (by decide)),
    if_neg (hne _ (by decide)), if_neg (hne _ (by decide)), if_neg (hne _ (by decide)),
    if_neg (by omega)]

theorem foldr_escape_safe {l : List Char} (h : ∀ c ∈ l, safeLabelChar c = true) :
    l.foldr (fun c acc => escapeJChar c ++ acc) ['"'] = l ++ ['"'] := by
  induction l with
  | nil => rfl
  | cons a as ih =>
    simp only [List.foldr_cons, escapeJChar_safe (h a (by simp)),
      ih fun c hc => h c (by simp [hc]), List.cons_append, List.nil_append,
      List.singleton_append]

theorem stringifyStr_safe {L : String} (h : safeLabel L = true) :
    stringifyStr L = '"' :: (L.data ++ ['"']) := by
  have hall : ∀ c ∈ L.data, safeLabelChar c = true := by
    simpa [safeLabel, List.all_eq_true] using h
  rw [stringifyStr, foldr_escape_safe hall]

theorem parseJStrBody_safe {l : List Char} (h : ∀ c ∈ l, safeLabelChar c = true)
    (rest : List Char) : parseJStrBody (l ++ '"' :: rest) = some (l, rest) := by
  induction l with
  | nil =>
    rw [List.nil_append, parseJStrBody.eq_def]
    simp
  | cons a as ih =>
    obtain ⟨h32, _, hq, hb, _⟩ := safeLabelChar_facts (h a (by simp))
    rw [List.cons_append, parseJStrBody.eq_def]
    simp only [if_neg hq, if_neg hb, if_neg (by omega : ¬a.toNat < 32)]
    rw [ih fun c hc => h c (by simp [hc])]
    rfl

/-! ### The stringified record and its re-parse -/
theorem intToDigits_natCast (v : Nat) : intToDigits (v : Int) = natToDigits v := by
  have h : ¬((v : Int) < 0) := not_lt.mpr (Int.natCast_nonneg v)
  simp [intToDigits, h]

theorem recChars_eq {L : String} (v : Nat) (hL : safeLabel L = true) :
    recChars L v = recCharsE L v := by
  simp only [recChars, mkRec, jsonStringify, jsonStringifyFields, stringifyNum,
    if_pos rfl, intToDigits_natCast, stringifyStr_safe hL, recCharsE]
  have hlab : stringifyStr "label" = '"' :: 'l' :: 'a' :: 'b' :: 'e' :: 'l' :: '"' :: [] := rfl
  have hval : stringifyStr "value" = '"' :: 'v' :: 'a' :: 'l' :: 'u' :: 'e' :: '"' :: [] := rfl
  rw [hlab, hval]
  simp

theorem isDigit_ne_chars {c : Char} (h : c.isDigit = true) :
    c ≠ '-' ∧ c ≠ '"' ∧ c ≠ '[' ∧ c ≠ '{' ∧ c ≠ 't' ∧ c ≠ 'f' ∧ c ≠ 'n' ∧
    c ≠ '0' → True := fun _ => trivial

theorem parseJNum_digits (v : Nat) (rest : List Char) :
    parseJNum (natToDigits v ++ '\x7d' :: rest) = some (jnum (v : Int) 0, '\x7d' :: rest) := by
  rcases Nat.eq_zero_or_pos v with hv | hv
  · subst hv
    rfl
  obtain ⟨d, ds, hds⟩ : ∃ d ds, natToDigits v = d :: ds := by
    cases hne : natToDigits v with
    | nil => exact absurd hne (natToDigits_ne_nil v)
    | cons d ds => exact ⟨d, ds, rfl⟩
  have hdig : ∀ c ∈ natToDigits v, c.isDigit = true := by
    intro c hc
    obtain ⟨e, he, hce⟩ := natToDigits_digits v c hc
    rw [hce]
    exact digitChar_isDigit he
  have hd : d.isDigit = true := hdig d (by simp [hds])
  have hd0 : d ≠ '0' := natToDigits_head_ne_zero hv d ds hds
  have hdm : d ≠ '-' := by
    intro he
    rw [he] at hd
    simp [Char.isDigit] at hd
  have htake : (natToDigits v ++ '\x7d' :: rest).takeWhile Char.isDigit = natToDigits v :=
    takeWhile_all_append _ _ hdig (by decide)
  have hdrop : (natToDigits v ++ '\x7d' :: rest).drop (natToDigits v).length =
      '\x7d' :: rest := drop_len_append
  rw [hds] at htake hdrop ⊢
  simp only [List.cons_append] at htake hdrop
  simp only [List.cons_append, parseJNum, if_neg hdm, hd, if_true, if_neg hd0, htake, hdrop]
  have hsw : startsWithL ['.'] ('\x7d' :: rest) = false := by simp [startsWithL]
  have hexp : parseExpPart ('\x7d' :: rest) = some ((false, []), '\x7d' :: rest) := by
    simp [parseExpPart, startsWithL]
  have h0 : natOfDigits ([] : List Char) = 0 := rfl
  simp only [hsw, hexp, h0, Bool.false_and, Bool.false_eq_true, if_false, List.append_nil]
  rw [← hds, natToDigits_val]
  simp [normNum]

theorem skipJWs_cons {c : Char} (l : List Char) (h : jsonWsChar c = false) :
    skipJWs (c :: l) = c :: l := by
  simp [skipJWs, List.dropWhile_cons, h]

theorem startsWithL_one (c d : Char) (l : List Char) :
    startsWithL [c] (d :: l) = (c == d) := by
  simp [startsWithL]

theorem digitChar_head_facts {d : Char} (hd : ∃ e, e < 10 ∧ d = digitChar e) :
    jsonWsChar d = false ∧ ¬d = '"' ∧ ¬d = '[' ∧ ¬d = '{' ∧ ('t' == d) = false ∧
    ('f' == d) = false ∧ ('n' == d) = false := by
  obtain ⟨e, he, hde⟩ := hd
  subst hde
  interval_cases e <;> refine ⟨by decide, by decide, by decide, by decide, by decide,
    by decide, by decide⟩

/-- A stringified natural number parses as one JSON number value. -/
theorem parseJVal_num (fuel : Nat) (v : Nat) (rest : List Char) :
    parseJVal (fuel + 1) (natToDigits v ++ '}' :: rest) =
      some (jnum (v : Int) 0, '}' :: rest) := by
  obtain ⟨d, ds, hds⟩ : ∃ d ds, natToDigits v = d :: ds := by
    cases hne : natToDigits v with
    | nil => exact absurd hne (natToDigits_ne_nil v)
    | cons d ds => exact ⟨d, ds, rfl⟩
  obtain ⟨h1, h2, h3, h4, h5, h6, h7⟩ :=
    digitChar_head_facts (natToDigits_digits v d (by simp [hds]))
  have hnum := parseJNum_digits v rest
  rw [hds, List.cons_append] at hnum ⊢
  rw [parseJVal.eq_def]
  norm_num
  rw [skipJWs_cons _ h1]
  simp only [if_neg h2, if_neg h3, if_neg h4]
  have hsw : ∀ (p : Char) (ps : List Char), (p == d) = false →
      startsWithL (p :: ps) (d :: (ds ++ '}' :: rest)) = false := by
    intro p ps hp
    simp [startsWithL, hp]
  rw [hsw 't' _ h5, hsw 'f' _ h6, hsw 'n' _ h7]
  simpa using hnum

/-- A stringified safe label parses as one JSON string value. -/
theorem parseJVal_str (fuel : Nat) {L : String} (hL : safeLabel L = true)
    (rest : List Char) :
    parseJVal (fuel + 1) ('"' :: (L.data ++ '"' :: rest)) = some (jstr L, rest) := by
  have hall : ∀ c ∈ L.data, safeLabelChar c = true := by
    simpa [safeLabel, List.all_eq_true] using hL
  rw [parseJVal.eq_def]
  norm_num
  rw [skipJWs_cons _ (by decide)]
  simp only [if_pos (show ('"' : Char) = '"' from rfl), parseJStrBody_safe hall,
    Option.map_some]
  simp

theorem parseJFields_value (fuel : Nat) (v : Nat) (rest : List Char) :
    parseJFields (fuel + 2)
      ('"' :: 'v' :: 'a' :: 'l' :: 'u' :: 'e' :: '"' :: ':' :: (natToDigits v ++ '}' :: rest)) =
      some ([("value", jnum (v : Int) 0)], rest) := by
  have hkey : parseJStrBody ('v' :: 'a' :: 'l' :: 'u' :: 'e' :: '"' :: ':' ::
      (natToDigits v ++ '}' :: rest)) =
      some (['v', 'a', 'l', 'u', 'e'], ':' :: (natToDigits v ++ '}' :: rest)) := by
    have := parseJStrBody_safe (l := ['v', 'a', 'l', 'u', 'e']) (by decide)
      (':' :: (natToDigits v ++ '}' :: rest))
    simpa using this
  have hnum := parseJVal_num fuel v rest
  rw [parseJFields.eq_def]
  norm_num
  rw [skipJWs_cons _ (by decide)]
  simp only [startsWithL_one, beq_self_eq_true, if_true, List.drop_one, List.tail_cons, hkey,
    Option.some_bind, Option.bind_some]
  rw [skipJWs_cons _ (by decide)]
  simp only [startsWithL_one, beq_self_eq_true, if_true, List.drop_one, List.tail_cons, hnum,
    Option.some_bind, Option.bind_some]
  rw [skipJWs_cons _ (by decide)]
  simp [startsWithL]

theorem parseJFields_record (fuel : Nat) {L : String} (hL : safeLabel L = true)
    (v : Nat) (rest : List Char) :
    parseJFields (fuel + 3)
      ('"' :: 'l' :: 'a' :: 'b' :: 'e' :: 'l' :: '"' :: ':' :: '"' ::
        (L.data ++ '"' :: ',' :: '"' :: 'v' :: 'a' :: 'l' :: 'u' :: 'e' :: '"' :: ':' ::
          (natToDigits v ++ '}' :: rest))) =
      some ([("label", jstr L), ("value", jnum (v : Int) 0)], rest) := by
  have hkey : parseJStrBody ('l' :: 'a' :: 'b' :: 'e' :: 'l' :: '"' :: ':' :: '"' ::
      (L.data ++ '"' :: ',' :: '"' :: 'v' :: 'a' :: 'l' :: 'u' :: 'e' :: '"' :: ':' ::
        (natToDigits v ++ '}' :: rest))) =
      some (['l', 'a', 'b', 'e', 'l'], ':' :: '"' ::
        (L.data ++ '"' :: ',' :: '"' :: 'v' :: 'a' :: 'l' :: 'u' :: 'e' :: '"' :: ':' ::
          (natToDigits v ++ '}' :: rest))) := by
    have := parseJStrBody_safe (l := ['l', 'a', 'b', 'e', 'l']) (by decide)
      (':' :: '"' :: (L.data ++ '"' :: ',' :: '"' :: 'v' :: 'a' :: 'l' :: 'u' :: 'e' :: '"' ::
        ':' :: (natToDigits v ++ '}' :: rest)))
    simpa using this
  have hfv := parseJFields_value fuel v rest
  rw [parseJFields.eq_def]
  norm_num
  rw [skipJWs_cons _ (by decide)]
  simp only [startsWithL_one, beq_self_eq_true, if_true, List.drop_one, List.tail_cons, hkey,
    Option.some_bind, Option.bind_some]
  rw [skipJWs_cons _ (by decide)]
  have hstr2 : parseJVal (fuel + 2)
      ('"' :: (L.data ++ '"' :: ',' :: '"' :: 'v' :: 'a' :: 'l' :: 'u' :: 'e' :: '"' :: ':' ::
        (natToDigits v ++ '}' :: rest))) =
      some (jstr L, ',' :: '"' :: 'v' :: 'a' :: 'l' :: 'u' :: 'e' :: '"' :: ':' ::
        (natToDigits v ++ '}' :: rest)) :=
    parseJVal_str (fuel + 1) hL _
  simp only [startsWithL_one, beq_self_eq_true, if_true, List.drop_one, List.tail_cons, hstr2,
    Option.some_bind, Option.bind_some]
  rw [skipJWs_cons _ (by decide)]
  simp only [startsWithL_one, beq_self_eq_true, if_true, List.drop_one, List.tail_cons, hfv,
    Option.map_some]
  simp [startsWithL]

/-- A stringified record re-parses as itself. -/
theorem parseJVal_record (fuel : Nat) {L : String} (hL : safeLabel L = true)
    (v : Nat) (rest : List Char) :
    parseJVal (fuel + 4) (recCharsE L v ++ rest) = some (mkRec L v, rest) := by
  have hf := parseJFields_record fuel hL v rest
  simp only [recCharsE, List.cons_append, List.append_assoc]
  rw [parseJVal.eq_def]
  norm_num
  rw [skipJWs_cons _ (by decide)]
  simp only [if_neg (show ¬('{' : Char) = '"' by decide),
    if_neg (show ¬('{' : Char) = '[' by decide),
    if_pos (show ('{' : Char) = '{' from rfl), if_true]
  rw [skipJWs_cons _ (by decide)]
  simp only [startsWithL_one]
  simp only [show (('}' : Char) == '"') = false from rfl, Bool.false_eq_true, if_false]
  rw [hf]
  simp [mkRec]

theorem stringifyElems_recs (rs : List (String × Nat)) :
    ∀ r : String × Nat,
      recChars r.1 r.2 ++ jsonStringifyElems (recsData rs) = recsInterior (r :: rs) := by
  induction rs with
  | nil =>
    intro r
    simp [recsData, jsonStringifyElems, recsInterior]
  | cons r' rs' ih =>
    intro r
    have h1 : recsInterior (r :: r' :: rs') = recChars r.1 r.2 ++ ',' :: recsInterior (r' :: rs') := rfl
    have h2 : jsonStringifyElems (recsData (r' :: rs')) =
        ',' :: (jsonStringify (mkRec r'.1 r'.2) ++ jsonStringifyElems (recsData rs')) := rfl
    rw [h1, h2, ← ih r']
    simp [recChars]

theorem jsonChars_eq (rs : List (String × Nat)) (hne : rs ≠ []) :
    jsonChars rs = '[' :: recsInterior rs ++ [']'] := by
  cases rs with
  | nil => exact absurd rfl hne
  | cons r rs' =>
    have h1 : jsonChars (r :: rs') =
        '[' :: (jsonStringify (mkRec r.1 r.2) ++ jsonStringifyElems (recsData rs')) ++ [']'] := rfl
    rw [h1, show jsonStringify (mkRec r.1 r.2) = recChars r.1 r.2 from rfl,
      stringifyElems_recs rs' r]

theorem recCharsE_len {L : String} (v : Nat) : 3 ≤ (recCharsE L v).length := by
  simp [recCharsE]

theorem recsInterior_len (rs : List (String × Nat))
    (hsafe : ∀ r ∈ rs, safeLabel r.1 = true) (hne : rs ≠ []) :
    rs.length + 2 ≤ (recsInterior rs).length := by
  induction rs with
  | nil => exact absurd rfl hne
  | cons r rs' ih =>
    cases rs' with
    | nil =>
      have h1 : recsInterior [r] = recChars r.1 r.2 := rfl
      rw [h1, recChars_eq r.2 (hsafe r (by simp))]
      have := recCharsE_len (L := r.1) r.2
      simp only [List.length_cons, List.length_nil]
      omega
    | cons r2 rs'' =>
      have h1 : recsInterior (r :: r2 :: rs'') =
          recChars r.1 r.2 ++ ',' :: recsInterior (r2 :: rs'') := rfl
      have ih2 := ih (fun x hx => hsafe x (List.mem_cons_of_mem r hx)) (by simp)
      rw [h1, recChars_eq r.2 (hsafe r (by simp))]
      have := recCharsE_len (L := r.1) r.2
      simp only [List.length_append, List.length_cons] at *
      omega

theorem parseJElems_records (rs : List (String × Nat)) :
    ∀ (fuel : Nat) (rest : List Char), (∀ r ∈ rs, safeLabel r.1 = true) → rs ≠ [] →
      parseJElems (fuel + rs.length + 4) (recsInterior rs ++ ']' :: rest) =
        some (recsData rs, rest) := by
  induction rs with
  | nil => intro _ _ _ hne; exact absurd rfl hne
  | cons r rs' ih =>
    intro fuel rest hsafe _
    have hr : safeLabel r.1 = true := hsafe r (by simp)
    cases rs' with
    | nil =>
      have h1 : recsInterior [r] = recChars r.1 r.2 := rfl
      rw [h1, recChars_eq r.2 hr]
      have hrec := parseJVal_record fuel hr r.2 (']' :: rest)
      rw [show fuel + [r].length + 4 = (fuel + 4) + 1 from by
        simp only [List.length_cons, List.length_nil]]
      rw [parseJElems.eq_def]
      norm_num
      simp only [List.append_assoc, List.cons_append] at hrec ⊢
      simp only [hrec, Option.some_bind]
      rw [skipJWs_cons _ (by decide)]
      simp [startsWithL, recsData]
    | cons r2 rs'' =>
      have h1 : recsInterior (r :: r2 :: rs'') =
          recChars r.1 r.2 ++ ',' :: recsInterior (r2 :: rs'') := rfl
      rw [h1, recChars_eq r.2 hr]
      have hlen : (r :: r2 :: rs'').length = (r2 :: rs'').length + 1 := rfl
      rw [show fuel + (r :: r2 :: rs'').length + 4 = (fuel + (r2 :: rs'').length + 4) + 1 from by
        simp only [hlen]
        omega]
      have hrec := parseJVal_record (fuel + (r2 :: rs'').length)
        hr r.2 (',' :: (recsInterior (r2 :: rs'') ++ ']' :: rest))
      rw [parseJElems.eq_def]
      norm_num
      simp only [List.append_assoc, List.cons_append, List.length_cons] at hrec ⊢
      simp only [hrec, Option.some_bind]
      rw [skipJWs_cons _ (by decide)]
      simp only [startsWithL_one, beq_self_eq_true, if_true, List.drop_one, List.tail_cons]
      have hihinst := ih fuel rest (fun x hx => hsafe x (List.mem_cons_of_mem r hx)) (by simp)
      simp only [List.append_assoc, List.cons_append, List.length_cons] at hihinst
      simp only [hihinst, Option.map_some]
      simp [recsData]

/-- The stringified record array re-parses as itself (`JSON.parse` after
`JSON.stringify` on descriptor records). -/
theorem jsonParseL_records (rs : List (String × Nat))
    (hsafe : ∀ r ∈ rs, safeLabel r.1 = true) (hne : rs ≠ []) :
    jsonParseL (jsonChars rs) = some (jarr (recsData rs)) := by
  obtain ⟨r, rs', hrs⟩ : ∃ r rs', rs = r :: rs' := by
    cases rs with
    | nil => exact absurd rfl hne
    | cons r rs' => exact ⟨r, rs', rfl⟩
  rw [jsonChars_eq rs hne]
  obtain ⟨k, hk⟩ : ∃ k, (recsInterior rs).length = k + rs.length + 2 := by
    have := recsInterior_len rs hsafe hne
    exact ⟨(recsInterior rs).length - rs.length - 2, by omega⟩
  have hhead : ∃ t, recsInterior rs = '{' :: t := by
    subst hrs
    cases rs' with
    | nil =>
      rw [show recsInterior [r] = recChars r.1 r.2 from rfl,
        recChars_eq r.2 (hsafe r (by simp)), recCharsE]
      exact ⟨_, rfl⟩
    | cons r2 rs'' =>
      rw [show recsInterior (r :: r2 :: rs'') =
        recChars r.1 r.2 ++ ',' :: recsInterior (r2 :: rs'') from rfl,
        recChars_eq r.2 (hsafe r (by simp)), recCharsE]
      exact ⟨_, rfl⟩
  obtain ⟨t, ht⟩ := hhead
  have hElems : parseJElems (k + rs.length + 4) (recsInterior rs ++ ']' :: []) =
      some (recsData rs, []) := parseJElems_records rs k [] hsafe hne
  simp only [jsonParseL]
  have hlen5 : ('[' :: recsInterior rs ++ [']']).length + 1 = (k + rs.length + 4) + 1 := by
    simp [hk]
  rw [hlen5, parseJVal.eq_def]
  norm_num
  rw [skipJWs_cons (c := '[') _ (by decide)]
  simp only [if_neg (show ¬('[' : Char) = '"' by decide),
    if_pos (show ('[' : Char) = '[' from rfl), if_true]
  rw [ht]
  simp only [List.cons_append]
  rw [skipJWs_cons (c := '{') _ (by decide)]
  simp only [startsWithL_one]
  simp only [show ((']' : Char) == '{') = false from rfl, Bool.false_eq_true, if_false]
  rw [← List.cons_append, ← ht, hElems]
  simp [skipJWs]

theorem plainJsonChar_facts {c : Char} (h : plainJsonChar c = true) :
    jsWs c = false ∧ c ≠ ']' ∧ c ≠ 'w' ∧ c ≠ 'h' ∧ c ≠ '.' ∧ c ≠ '$' ∧ c ≠ '=' := by
  simp only [plainJsonChar, Bool.and_eq_true, Bool.not_eq_true', beq_eq_false_iff_ne,
    ne_eq, Bool.not_eq_true] at h
  tauto

theorem recCharsE_all {L : String} {v : Nat} (hL : safeLabel L = true) :
    ∀ c ∈ recCharsE L v, plainJsonChar c = true := by
  have hall : ∀ c ∈ L.data, safeLabelChar c = true := by
    simpa [safeLabel, List.all_eq_true] using hL
  intro c hc
  simp only [recCharsE, List.mem_cons, List.mem_append] at hc
  rcases hc with h | h | h | h | h | h | h | h | h | h | hrest
  · subst h; decide
  · subst h; decide
  · subst h; decide
  · subst h; decide
  · subst h; decide
  · subst h; decide
  · subst h; decide
  · subst h; decide
  · subst h; decide
  · subst h; decide
  rcases hrest with h | hrest
  · exact safeLabelChar_plain (hall c h)
  rcases hrest with h | h | h | h | h | h | h | h | h | h | hrest
  · subst h; decide
  · subst h; decide
  · subst h; decide
  · subst h; decide
  · subst h; decide
  · subst h; decide
  · subst h; decide
  · subst h; decide
  · subst h; decide
  · subst h; decide
  rcases hrest with h | h
  · obtain ⟨d, hd, hcd⟩ := natToDigits_digits v c h
    rw [hcd]
    exact digitChar_plain hd
  · simp at h
    subst h
    decide

theorem recsInterior_all (rs : List (String × Nat))
    (hsafe : ∀ r ∈ rs, safeLabel r.1 = true) :
    ∀ c ∈ recsInterior rs, plainJsonChar c = true := by
  induction rs with
  | nil => intro c hc; simp [recsInterior] at hc
  | cons r rs' ih =>
    intro c hc
    cases rs' with
    | nil =>
      rw [show recsInterior [r] = recChars r.1 r.2 from rfl,
        recChars_eq r.2 (hsafe r (by simp))] at hc
      exact recCharsE_all (hsafe r (by simp)) c hc
    | cons r2 rs'' =>
      rw [show recsInterior (r :: r2 :: rs'') =
        recChars r.1 r.2 ++ ',' :: recsInterior (r2 :: rs'') from rfl,
        recChars_eq r.2 (hsafe r (by simp))] at hc
      rcases List.mem_append.1 hc with h | h
      · exact recCharsE_all (hsafe r (by simp)) c h
      rcases List.mem_cons.1 h with h | h
      · subst h; decide
      · exact ih (fun x hx => hsafe x (List.mem_cons_of_mem r hx)) c h

theorem takeWhile_nil_of_false {p : Char → Bool} {l : List Char}
    (h : ∀ c ∈ l, p c = false) : l.takeWhile p = [] := by
  cases l with
  | nil => rfl
  | cons a as => simp [List.takeWhile_cons, h a (by simp)]

theorem tryVarAssign_none_of_nonWs (names : List (List Char)) (l : List Char)
    (h : ∀ c ∈ l, jsWs c = false) : tryVarAssign names l = none := by
  have hws : ∀ k : Nat, (l.drop k).takeWhile jsWs = [] := by
    intro k
    exact takeWhile_nil_of_false fun c hc => h c (List.drop_subset k l hc)
  unfold tryVarAssign
  by_cases h1 : startsWithL ("const".data) l = true
  · simp [h1, hws 5]
  by_cases h2 : startsWithL ("let".data) l = true
  · simp [h1, h2, hws 3]
  by_cases h3 : startsWithL ("var".data) l = true
  · simp [h1, h2, h3, hws 3]
  simp [h1, h2, h3]

theorem findVarAssign_skip {names : List (List Char)} {c : Char} {cs : List Char}
    (h : tryVarAssign names (c :: cs) = none) :
    findVarAssign names (c :: cs) = findVarAssign names cs := by
  rw [findVarAssign.eq_def]
  simp [h]

theorem findVarAssign_none_of_nonWs (names : List (List Char)) :
    ∀ l : List Char, (∀ c ∈ l, jsWs c = false) → findVarAssign names l = none := by
  intro l
  induction l with
  | nil => intro _; rfl
  | cons a as ih =>
    intro h
    rw [findVarAssign_skip (tryVarAssign_none_of_nonWs names _ h)]
    exact ih fun c hc => h c (by simp [hc])

theorem mem_of_startsWithL_single {c : Char} {l : List Char}
    (h : startsWithL [c] l = true) : c ∈ l := by
  cases l with
  | nil => simp [startsWithL] at h
  | cons a as =>
    simp only [startsWithL, Bool.and_eq_true, beq_iff_eq] at h
    simp [h.1]

theorem tryVarAssign_none_no_lbracket (names : List (List Char)) (l : List Char)
    (h : ('[' : Char) ∉ l) : tryVarAssign names l = none := by
  unfold tryVarAssign
  repeat' (first | (split <;> try rfl) | simp only [])
  all_goals
    refine absurd (List.drop_subset _ _ (List.drop_subset _ _ (List.drop_subset _ _
      (List.dropWhile_subset _ (List.drop_subset _ _ (List.dropWhile_subset _
      (mem_of_startsWithL_single (by assumption)))))))) h

theorem findVarAssign_none_no_lbracket (names : List (List Char)) :
    ∀ l : List Char, ('[' : Char) ∉ l → findVarAssign names l = none := by
  intro l
  induction l with
  | nil => intro _; rfl
  | cons a as ih =>
    intro h
    rw [findVarAssign_skip (tryVarAssign_none_no_lbracket names _ h)]
    exact ih fun hc => h (by simp [hc])

theorem tryInline_none_no_lbracket (l : List Char) (h : ('[' : Char) ∉ l) :
    tryInline l = none := by
  unfold tryInline
  repeat' (first | (split <;> try rfl) | simp only [])
  all_goals
    refine absurd (List.drop_subset _ _ (List.dropWhile_subset _
      (mem_of_startsWithL_single (by assumption)))) h

theorem findInline_none_no_lbracket :
    ∀ l : List Char, ('[' : Char) ∉ l → findInline l = none := by
  intro l
  induction l with
  | nil => intro _; rfl
  | cons a as ih =>
    intro h
    rw [findInline.eq_def]
    simp only []
    rw [tryInline_none_no_lbracket _ h]
    exact ih fun hc => h (by simp [hc])

theorem extractDataArray_no_lbracket (l : List Char) (h : ('[' : Char) ∉ l) :
    extractDataArray l = [] := by
  unfold extractDataArray
  rw [findVarAssign_none_no_lbracket _ _ h, findVarAssign_none_no_lbracket _ _ h,
    findInline_none_no_lbracket _ h]
  rfl

/-- The position-0 match of the `(?:const|let|var)\s+NAME\s*=\s*(\[...\]);?`
scanner on a canonical declaration whose bracket interior has no `]`. -/
theorem tryVarAssign_decl (names : List (List Char)) (c : Char) (nmr : List Char)
    (I rest : List Char) (hc : jsWs c = false)
    (hI : ∀ x ∈ I, x ≠ ']')
    (hfind : names.find?
        (fun x => startsWithL x
          (c :: nmr ++ ' ' :: '=' :: ' ' :: '[' :: (I ++ ']' :: rest))) =
      some (c :: nmr)) :
    tryVarAssign names
      ('c' :: 'o' :: 'n' :: 's' :: 't' :: ' ' :: c :: (nmr ++
        ' ' :: '=' :: ' ' :: '[' :: (I ++ ']' :: rest))) =
      some ('[' :: I ++ [']']) := by
  unfold tryVarAssign
  rw [show ("const").data = ['c','o','n','s','t'] from rfl]
  simp only [startsWithL, beq_self_eq_true, Bool.true_and, Bool.and_self, if_true]
  simp only [List.drop_succ_cons, List.drop_zero, List.takeWhile_cons,
    show jsWs ' ' = true from rfl, if_true, hc, Bool.false_eq_true, if_false]
  simp only [List.isEmpty_cons, List.length_cons, List.length_nil]
  simp only [Bool.false_eq_true, if_false]
  norm_num [List.drop_succ_cons]
  have h2 := hfind
  simp only [List.cons_append] at h2
  rw [h2]
  simp only [List.length_cons, List.drop_succ_cons]
  rw [show (nmr ++ ' ' :: '=' :: ' ' :: '[' :: (I ++ ']' :: rest)).drop nmr.length =
    ' ' :: '=' :: ' ' :: '[' :: (I ++ ']' :: rest) from drop_len_append]
  have hdw1 : List.dropWhile jsWs (' ' :: '=' :: ' ' :: '[' :: (I ++ ']' :: rest)) =
      '=' :: ' ' :: '[' :: (I ++ ']' :: rest) := by
    simp [List.dropWhile_cons, jsWs]
  have hdw2 : List.dropWhile jsWs (' ' :: '[' :: (I ++ ']' :: rest)) =
      '[' :: (I ++ ']' :: rest) := by
    simp [List.dropWhile_cons, jsWs]
  rw [hdw1]
  simp only [List.tail_cons]
  rw [hdw2]
  simp only [List.tail_cons]
  rw [takeWhile_all_append (p := fun x => !decide (x = ']')) ']' rest
    (fun x hx => by simpa using hI x hx) (by decide)]
  simp only [List.drop_succ_cons, drop_len_append]
  simp [startsWithL]

/-- If the data/alias scan captures exactly the stringified record array, the
whole extraction stage returns its records. -/
theorem extractDataArray_of_cap1 (code : List Char) (rs : List (String × Nat))
    (hsafe : ∀ r ∈ rs, safeLabel r.1 = true) (hne : rs ≠ [])
    (hcap : (match findVarAssign [("data".data)] code with
             | some cap => some cap
             | none => findVarAssign aliasNames code) = some (jsonChars rs)) :
    extractDataArray code = recsData rs := by
  have hlen : 0 < (recsData rs).length := by
    simp only [recsData, List.length_map]
    exact List.length_pos.mpr hne
  have hie : (recsData rs).isEmpty = false := by
    cases rs with
    | nil => exact absurd rfl hne
    | cons r rs' => rfl
  unfold extractDataArray
  rw [hcap]
  simp only []
  rw [jsonParseL_records rs hsafe hne]
  simp only [hlen, if_true, hie, Bool.false_eq_true, if_false, gt_iff_lt]

/-- C6: the data-extraction step never throws (it is a total function of the
source text); on a source assigning a literal array of \x7blabel, value\x7d
records to one of the conventional variable names `data`, `events`, `nodes`,
`tasks`, `matrix`, it returns exactly that record array; and on a text with
no `[` at all it returns the empty sequence. -/
theorem extractData_assignment_and_no_bracket :
    (∀ nm ∈ (["data", "events", "nodes", "tasks", "matrix"] : List String),
      ∀ rs : List (String × Nat), (∀ r ∈ rs, safeLabel r.1 = true) → rs ≠ [] →
        extractDataArray (varDecl nm rs) = recsData rs) ∧
    (∀ l : List Char, ('[' : Char) ∉ l → extractDataArray l = []) := by
  constructor
  · intro nm hnm rs hsafe hne
    have hjson := jsonChars_eq rs hne
    have hIf : ∀ x ∈ recsInterior rs, x ≠ ']' ∧ jsWs x = false := by
      intro x hx
      have f := plainJsonChar_facts (recsInterior_all rs hsafe x hx)
      exact ⟨f.2.1, f.1⟩
    have htail : ∀ x ∈ recsInterior rs ++ ']' :: ';' :: [], jsWs x = false := by
      intro x hx
      rcases List.mem_append.1 hx with h | h
      · exact (hIf x h).2
      · rcases List.mem_cons.1 h with h | h
        · subst h; decide
        rcases List.mem_cons.1 h with h | h
        · subst h; decide
        · simp at h
    fin_cases hnm
    · -- nm = "data"
      have hshape : varDecl "data" rs =
          'c' :: 'o' :: 'n' :: 's' :: 't' :: ' ' :: 'd' :: (['a','t','a'] ++
            ' ' :: '=' :: ' ' :: '[' :: (recsInterior rs ++ ']' :: ';' :: [])) := by
        unfold varDecl
        rw [hjson]
        simp
      refine extractDataArray_of_cap1 _ rs hsafe hne ?_
      have hD : findVarAssign [("data".data)] (varDecl "data" rs) =
          some ('[' :: recsInterior rs ++ [']']) := by
        rw [hshape, findVarAssign.eq_def]
        simp only []
        rw [tryVarAssign_decl [("data".data)] 'd' ['a','t','a'] (recsInterior rs) (';' :: [])
          (by decide) (fun x hx => (hIf x hx).1) (by simp [List.find?, startsWithL])]
      rw [hD]
      simp only []
      exact congrArg some hjson.symm
    · -- nm = "events"
      have hshape : varDecl "events" rs =
          'c' :: 'o' :: 'n' :: 's' :: 't' :: ' ' :: 'e' :: (['v','e','n','t','s'] ++
            ' ' :: '=' :: ' ' :: '[' :: (recsInterior rs ++ ']' :: ';' :: [])) := by
        unfold varDecl
        rw [hjson]
        simp
      refine extractDataArray_of_cap1 _ rs hsafe hne ?_
      have hD : findVarAssign [("data".data)] (varDecl "events" rs) = none := by
        rw [hshape]
        simp only [List.cons_append, List.nil_append]
        repeat rw [findVarAssign_skip (by unfold tryVarAssign; simp [startsWithL, jsWs, List.find?])]
        exact findVarAssign_none_of_nonWs _ _ htail
      have hA : findVarAssign aliasNames (varDecl "events" rs) =
          some ('[' :: recsInterior rs ++ [']']) := by
        rw [hshape, findVarAssign.eq_def]
        simp only []
        rw [tryVarAssign_decl aliasNames 'e' ['v','e','n','t','s'] (recsInterior rs) (';' :: [])
          (by decide) (fun x hx => (hIf x hx).1) (by simp [aliasNames, List.find?, startsWithL])]
      rw [hD]
      simp only []
      rw [hA]
      exact congrArg some hjson.symm
    · -- nm = "nodes"
      have hshape : varDecl "nodes" rs =
          'c' :: 'o' :: 'n' :: 's' :: 't' :: ' ' :: 'n' :: (['o','d','e','s'] ++
            ' ' :: '=' :: ' ' :: '[' :: (recsInterior rs ++ ']' :: ';' :: [])) := by
        unfold varDecl
        rw [hjson]
        simp
      refine extractDataArray_of_cap1 _ rs hsafe hne ?_
      have hD : findVarAssign [("data".data)] (varDecl "nodes" rs) = none := by
        rw [hshape]
        simp only [List.cons_append, List.nil_append]
        repeat rw [findVarAssign_skip (by unfold tryVarAssign; simp [startsWithL, jsWs, List.find?])]
        exact findVarAssign_none_of_nonWs _ _ htail
      have hA : findVarAssign aliasNames (varDecl "nodes" rs) =
          some ('[' :: recsInterior rs ++ [']']) := by
        rw [hshape, findVarAssign.eq_def]
        simp only []
        rw [tryVarAssign_decl aliasNames 'n' ['o','d','e','s'] (recsInterior rs) (';' :: [])
          (by decide) (fun x hx => (hIf x hx).1) (by simp [aliasNames, List.find?, startsWithL])]
      rw [hD]
      simp only []
      rw [hA]
      exact congrArg some hjson.symm
    · -- nm = "tasks"
      have hshape : varDecl "tasks" rs =
          'c' :: 'o' :: 'n' :: 's' :: 't' :: ' ' :: 't' :: (['a','s','k','s'] ++
            ' ' :: '=' :: ' ' :: '[' :: (recsInterior rs ++ ']' :: ';' :: [])) := by
        unfold varDecl
        rw [hjson]
        simp
      refine extractDataArray_of_cap1 _ rs hsafe hne ?_
      have hD : findVarAssign [("data".data)] (varDecl "tasks" rs) = none := by
        rw [hshape]
        simp only [List.cons_append, List.nil_append]
        repeat rw [findVarAssign_skip (by unfold tryVarAssign; simp [startsWithL, jsWs, List.find?])]
        exact findVarAssign_none_of_nonWs _ _ htail
      have hA : findVarAssign aliasNames (varDecl "tasks" rs) =
          some ('[' :: recsInterior rs ++ [']']) := by
        rw [hshape, findVarAssign.eq_def]
        simp only []
        rw [tryVarAssign_decl aliasNames 't' ['a','s','k','s'] (recsInterior rs) (';' :: [])
          (by decide) (fun x hx => (hIf x hx).1) (by simp [aliasNames, List.find?, startsWithL])]
      rw [hD]
      simp only []
      rw [hA]
      exact congrArg some hjson.symm
    · -- nm = "matrix"
      have hshape : varDecl "matrix" rs =
          'c' :: 'o' :: 'n' :: 's' :: 't' :: ' ' :: 'm' :: (['a','t','r','i','x'] ++
            ' ' :: '=' :: ' ' :: '[' :: (recsInterior rs ++ ']' :: ';' :: [])) := by
        unfold varDecl
        rw [hjson]
        simp
      refine extractDataArray_of_cap1 _ rs hsafe hne ?_
      have hD : findVarAssign [("data".data)] (varDecl "matrix" rs) = none := by
        rw [hshape]
        simp only [List.cons_append, List.nil_append]
        repeat rw [findVarAssign_skip (by unfold tryVarAssign; simp [startsWithL, jsWs, List.find?])]
        exact findVarAssign_none_of_nonWs _ _ htail
      have hA : findVarAssign aliasNames (varDecl "matrix" rs) =
          some ('[' :: recsInterior rs ++ [']']) := by
        rw [hshape, findVarAssign.eq_def]
        simp only []
        rw [tryVarAssign_decl aliasNames 'm' ['a','t','r','i','x'] (recsInterior rs) (';' :: [])
          (by decide) (fun x hx => (hIf x hx).1) (by simp [aliasNames, List.find?, startsWithL])]
      rw [hD]
      simp only []
      rw [hA]
      exact congrArg some hjson.symm
  · exact extractDataArray_no_lbracket

theorem extractData_assignment_and_no_bracket_witness :
    extractDataArray (varDecl "data" [("A", 30)]) = recsData [("A", 30)] ∧
    extractDataArray ("hello".data) = [] :=
  ⟨extractData_assignment_and_no_bracket.1 "data" (by simp) [("A", 30)]
      (by decide) (by decide),
    extractData_assignment_and_no_bracket.2 ("hello".data) (by decide)⟩

theorem parseJFields_none_head (fuel : Nat) (c : Char) (rest : List Char)
    (hws : jsonWsChar c = false) (hq : ('"' == c) = false) :
    parseJFields fuel (c :: rest) = none := by
  cases fuel with
  | zero => rfl
  | succ f =>
    rw [parseJFields.eq_def]
    simp only [skipJWs_cons _ hws, startsWithL_one, hq, Bool.false_eq_true, if_false]

theorem parseJVal_computed_none (fuel : Nat) (rest : List Char) :
    parseJVal fuel (computedRec ++ rest) = none := by
  cases fuel with
  | zero => rfl
  | succ f =>
    rw [show computedRec = '\x7b' :: 'l' ::
      (("abel: \x27B\x27, value: getValue()\x7d").data) from rfl]
    simp only [List.cons_append]
    rw [parseJVal.eq_def]
    simp only [skipJWs_cons (c := '\x7b') _ (by decide)]
    simp only [if_neg (show ¬('\x7b' : Char) = '"' by decide),
      if_neg (show ¬('\x7b' : Char) = '[' by decide),
      if_pos (show ('\x7b' : Char) = '\x7b' from rfl)]
    rw [skipJWs_cons _ (by decide)]
    simp only [startsWithL_one, show (('\x7d' : Char) == 'l') = false from rfl,
      Bool.false_eq_true, if_false]
    rw [parseJFields_none_head f 'l' _ (by decide) (by decide)]
    rfl

theorem parseJElems_computed_none (fuel : Nat) (rest : List Char) :
    parseJElems fuel (computedRec ++ rest) = none := by
  cases fuel with
  | zero => rfl
  | succ f =>
    rw [parseJElems.eq_def]
    simp only [parseJVal_computed_none f rest, Option.bind_eq_bind, Option.none_bind]

theorem parseJElems_mixed_none (k : Nat) {L : String} (hL : safeLabel L = true)
    (v : Nat) :
    parseJElems (k + 5) (recCharsE L v ++ ',' :: (computedRec ++ [']'])) = none := by
  have hrec := parseJVal_record k hL v (',' :: (computedRec ++ [']']))
  rw [show k + 5 = (k + 4) + 1 from rfl, parseJElems.eq_def]
  simp only [hrec, Option.bind_eq_bind, Option.some_bind]
  rw [skipJWs_cons _ (by decide)]
  simp only [startsWithL_one, beq_self_eq_true, if_true, List.drop_one, List.tail_cons]
  rw [parseJElems_computed_none (k + 4) [']']]
  rfl

theorem parseJVal_mixed_none (k : Nat) {L : String} (hL : safeLabel L = true)
    (v : Nat) :
    parseJVal (k + 6) ('[' :: (recCharsE L v ++ ',' :: (computedRec ++ [']']))) = none := by
  obtain ⟨t, ht⟩ : ∃ t, recCharsE L v = '\x7b' :: t := ⟨_, rfl⟩
  rw [show k + 6 = (k + 5) + 1 from rfl, parseJVal.eq_def]
  norm_num
  rw [skipJWs_cons (c := '[') _ (by decide)]
  simp only [if_neg (show ¬('[' : Char) = '"' by decide),
    if_pos (show ('[' : Char) = '[' from rfl), if_true]
  rw [ht]
  simp only [List.cons_append]
  rw [skipJWs_cons (c := '\x7b') _ (by decide)]
  simp only [startsWithL_one]
  simp only [show ((']' : Char) == '\x7b') = false from rfl, Bool.false_eq_true, if_false]
  rw [← List.cons_append, ← ht]
  rw [parseJElems_mixed_none k hL v]
  rfl

theorem jsonParseL_mixed_none {L : String} (hL : safeLabel L = true) (v : Nat) :
    jsonParseL ('[' :: (recCharsE L v ++ ',' :: (computedRec ++ [']']))) = none := by
  obtain ⟨k, hk⟩ : ∃ k,
      ('[' :: (recCharsE L v ++ ',' :: (computedRec ++ [']']))).length + 1 = k + 6 := by
    refine ⟨('[' :: (recCharsE L v ++ ',' :: (computedRec ++ [']']))).length - 5, ?_⟩
    have h3 := recCharsE_len (L := L) v
    simp only [List.length_cons, List.length_append]
    omega
  unfold jsonParseL
  rw [hk, parseJVal_mixed_none k hL v]

theorem bgStep_fold_open (done : List (List Char)) (acc : List Char) :
    ∀ mid rest : List Char, (∀ c ∈ mid, c ≠ '\x7d') →
    List.foldl bgStep (done, some acc) (mid ++ '\x7d' :: rest) =
      List.foldl bgStep (done ++ [acc.reverse ++ (mid ++ ['\x7d'])], none) rest := by
  intro mid
  induction mid generalizing acc with
  | nil =>
    intro rest _
    simp [bgStep]
  | cons m ms ih =>
    intro rest hmid
    have hm : m ≠ '\x7d' := hmid m (by simp)
    simp only [List.cons_append, List.foldl_cons]
    rw [show bgStep (done, some acc) m = (done, some (m :: acc)) from by
      simp [bgStep, hm]]
    rw [ih (m :: acc) rest (fun c hc => hmid c (by simp [hc]))]
    simp

theorem bgStep_fold_group (done : List (List Char)) (mid rest : List Char)
    (hmid : ∀ c ∈ mid, c ≠ '\x7d') :
    List.foldl bgStep (done, none) ('\x7b' :: (mid ++ '\x7d' :: rest)) =
      List.foldl bgStep (done ++ ['\x7b' :: (mid ++ ['\x7d'])], none) rest := by
  rw [List.foldl_cons]
  rw [show bgStep (done, none) '\x7b' = (done, some ['\x7b']) from by simp [bgStep]]
  rw [bgStep_fold_open done ['\x7b'] mid rest hmid]
  simp

theorem bgStep_skip (done : List (List Char)) (c : Char) (hc : c ≠ '\x7b') :
    bgStep (done, none) c = (done, none) := by
  simp [bgStep, hc]

theorem recCharsE_mid {L : String} (v : Nat) :
    recCharsE L v = '\x7b' :: ('"' :: 'l' :: 'a' :: 'b' :: 'e' :: 'l' :: '"' :: ':' :: '"' ::
      (L.data ++ '"' :: ',' :: '"' :: 'v' :: 'a' :: 'l' :: 'u' :: 'e' :: '"' :: ':' ::
        natToDigits v) ++ ['\x7d']) := by
  simp [recCharsE]

theorem recCharsE_mid_no_rbrace {L : String} (hL : safeLabel L = true) (v : Nat) :
    ∀ c ∈ ('"' :: 'l' :: 'a' :: 'b' :: 'e' :: 'l' :: '"' :: ':' :: '"' ::
      (L.data ++ '"' :: ',' :: '"' :: 'v' :: 'a' :: 'l' :: 'u' :: 'e' :: '"' :: ':' ::
        natToDigits v)), c ≠ '\x7d' := by
  have hldata : ∀ c ∈ L.data, safeLabelChar c = true := by
    simpa [safeLabel, List.all_eq_true] using hL
  intro c hc
  simp only [List.mem_cons, List.mem_append] at hc
  rcases hc with h | h | h | h | h | h | h | h | h | hc
  · subst h; decide
  · subst h; decide
  · subst h; decide
  · subst h; decide
  · subst h; decide
  · subst h; decide
  · subst h; decide
  · subst h; decide
  · subst h; decide
  rcases hc with h | hc
  · exact (safeLabelChar_facts (hldata c h)).2.2.2.2.2.2.1
  rcases hc with h | h | h | h | h | h | h | h | h | h | h
  · subst h; decide
  · subst h; decide
  · subst h; decide
  · subst h; decide
  · subst h; decide
  · subst h; decide
  · subst h; decide
  · subst h; decide
  · subst h; decide
  · subst h; decide
  · obtain ⟨d, hd, hcd⟩ := natToDigits_digits v c h
    subst hcd
    exact (safeLabelChar_facts (digitChar_safe hd)).2.2.2.2.2.2.1

theorem computedRec_mid :
    computedRec = '\x7b' :: (("label: \x27B\x27, value: getValue()").data ++ ['\x7d']) := by
  rfl

theorem group_append (a : Char) (mid rest : List Char) :
    (a :: (mid ++ ['\x7d'])) ++ rest = a :: (mid ++ '\x7d' :: rest) := by simp

theorem braceGroups_mixed {L : String} (hL : safeLabel L = true) (v : Nat) :
    braceGroups ('[' :: (recCharsE L v ++ ',' :: (computedRec ++ [']']))) =
      [recCharsE L v, computedRec] := by
  unfold braceGroups
  rw [List.foldl_cons, bgStep_skip [] '[' (by decide)]
  rw [recCharsE_mid (L := L) v, group_append]
  rw [bgStep_fold_group [] _ _ (recCharsE_mid_no_rbrace hL v)]
  rw [List.foldl_cons, bgStep_skip _ ',' (by decide)]
  rw [computedRec_mid, group_append]
  rw [bgStep_fold_group _ _ _ (by decide)]
  rw [List.foldl_cons, bgStep_skip _ ']' (by decide)]
  simp only [List.foldl_nil, List.nil_append]
  rw [← recCharsE_mid, ← computedRec_mid]
  rfl

/-- A single stringified record strict-parses back to itself. -/
theorem jsonParseL_recCharsE {L : String} (hL : safeLabel L = true) (v : Nat) :
    jsonParseL (recCharsE L v) = some (mkRec L v) := by
  obtain ⟨k, hk⟩ : ∃ k, (recCharsE L v).length + 1 = k + 4 := by
    have h3 := recCharsE_len (L := L) v
    exact ⟨(recCharsE L v).length - 3, by omega⟩
  unfold jsonParseL
  rw [hk, show (recCharsE L v : List Char) = recCharsE L v ++ [] from by simp,
    parseJVal_record k hL v []]
  rfl

/-- The permissive fallback on the C7 capture keeps only the well-formed
record and drops the computed one. -/
theorem extractSimpleDataArray_mixed {L : String} (hL : safeLabel L = true) (v : Nat) :
    extractSimpleDataArray ('[' :: (recCharsE L v ++ ',' :: (computedRec ++ [']']))) =
      [mkRec L v] := by
  unfold extractSimpleDataArray
  rw [braceGroups_mixed hL v]
  rw [List.filterMap_cons, List.filterMap_cons, List.filterMap_nil]
  rw [jsonParseL_recCharsE hL v]
  rfl

theorem mixedDecl_shape {L : String} (hL : safeLabel L = true) (v : Nat) :
    mixedDecl L v =
      'c' :: 'o' :: 'n' :: 's' :: 't' :: ' ' :: 'd' :: (['a','t','a'] ++
        ' ' :: '=' :: ' ' :: '[' :: ((recCharsE L v ++ ',' :: computedRec) ++
          ']' :: ';' :: [])) := by
  unfold mixedDecl
  rw [recChars_eq v hL]
  simp

theorem findVarAssign_mixedDecl {L : String} (hL : safeLabel L = true) (v : Nat) :
    findVarAssign [("data".data)] (mixedDecl L v) =
      some ('[' :: (recCharsE L v ++ ',' :: computedRec) ++ [']']) := by
  have hI : ∀ x ∈ recCharsE L v ++ ',' :: computedRec, x ≠ ']' := by
    intro x hx
    rcases List.mem_append.1 hx with h | h
    · exact (plainJsonChar_facts (recCharsE_all hL x h)).2.1
    rcases List.mem_cons.1 h with h | h
    · subst h; decide
    · exact (show ∀ y ∈ computedRec, y ≠ ']' by decide) x h
  rw [mixedDecl_shape hL v, findVarAssign.eq_def]
  simp only []
  rw [tryVarAssign_decl [("data".data)] 'd' ['a','t','a'] (recCharsE L v ++ ',' :: computedRec) (';' :: [])
    (by decide) hI (by simp [List.find?, startsWithL])]

/-- C7: on a captured literal with one well-formed record and one record
whose `value` is a computed call, strict decoding fails, the permissive
fallback decodes each brace group independently, and only the well-formed
record survives — the computed record is dropped without affecting it. -/
theorem extractData_computed_record_dropped (L : String) (v : Nat)
    (hL : safeLabel L = true) :
    extractDataArray (mixedDecl L v) = [mkRec L v] := by
  have hcap := findVarAssign_mixedDecl hL v
  have hshape : ('[' : Char) :: (recCharsE L v ++ ',' :: computedRec) ++ [']'] =
      '[' :: (recCharsE L v ++ ',' :: (computedRec ++ [']'])) := by
    simp
  unfold extractDataArray
  rw [hcap]
  simp only []
  rw [hshape, jsonParseL_mixed_none hL v]
  simp only []
  rw [extractSimpleDataArray_mixed hL v]
  rfl

theorem extractData_computed_record_dropped_witness :
    extractDataArray (mixedDecl "A" 30) = [mkRec "A" 30] :=
  extractData_computed_record_dropped "A" 30 (by decide)

theorem dimsRepF_append_scan (w h : Nat) (B : List Char) (f : Nat) :
    ∀ A : List Char,
      scanNone (fun l => (tryDim l).isNone) A.length (A ++ B) = true →
      dimsRepF w h (A.length + f) (A ++ B) = A ++ dimsRepF w h f B := by
  intro A
  induction A with
  | nil => intro _; simp
  | cons a as ih =>
    intro hA
    rw [show (a :: as).length = as.length + 1 from rfl, List.cons_append,
      scanNone.eq_def] at hA
    simp only [Bool.and_eq_true, Option.isNone_iff_eq_none] at hA
    rw [show (a :: as).length + f = (as.length + f) + 1 from by simp; omega]
    rw [List.cons_append, dimsRepF.eq_def]
    simp only []
    rw [hA.1, ih hA.2]
    rfl

theorem colors0RepF_append_scan (color B : List Char) (f : Nat) :
    ∀ A : List Char,
      scanNone (fun l => !startsWithL (("utils.colors[0]").data) l)
        A.length (A ++ B) = true →
      colors0RepF color (A.length + f) (A ++ B) = A ++ colors0RepF color f B := by
  intro A
  induction A with
  | nil => intro _; simp
  | cons a as ih =>
    intro hA
    rw [show (a :: as).length = as.length + 1 from rfl, List.cons_append,
      scanNone.eq_def] at hA
    simp only [Bool.and_eq_true, Bool.not_eq_true'] at hA
    rw [show (a :: as).length + f = (as.length + f) + 1 from by simp; omega]
    rw [List.cons_append, colors0RepF.eq_def]
    simp only []
    rw [hA.1]
    simp only [Bool.false_eq_true, if_false]
    rw [ih hA.2]
    rfl

theorem steelRepF_append_scan (color B : List Char) (f : Nat) :
    ∀ A : List Char,
      scanNone (fun l => (trySteel l).isNone) A.length (A ++ B) = true →
      steelRepF color (A.length + f) (A ++ B) = A ++ steelRepF color f B := by
  intro A
  induction A with
  | nil => intro _; simp
  | cons a as ih =>
    intro hA
    rw [show (a :: as).length = as.length + 1 from rfl, List.cons_append,
      scanNone.eq_def] at hA
    simp only [Bool.and_eq_true, Option.isNone_iff_eq_none] at hA
    rw [show (a :: as).length + f = (as.length + f) + 1 from by simp; omega]
    rw [List.cons_append, steelRepF.eq_def]
    simp only []
    rw [hA.1, ih hA.2]
    rfl

theorem colors0RepF_match (color rest : List Char) (fuel : Nat) :
    colors0RepF color (fuel + 1) ((("utils.colors[0]").data) ++ rest) =
      '"' :: color ++ '"' :: colors0RepF color fuel rest := by
  rw [show (("utils.colors[0]").data) ++ rest =
    'u' :: ((("tils.colors[0]").data) ++ rest) from rfl]
  rw [colors0RepF.eq_def]
  simp only []
  rw [show startsWithL (("utils.colors[0]").data)
      ('u' :: ((("tils.colors[0]").data) ++ rest)) = true from by
    simp [startsWithL]]
  rw [show ('u' :: ((("tils.colors[0]").data) ++ rest)).drop 15 = rest from rfl]
  simp

theorem dimsRep_id_histogram (w h : Nat) : dimsRep w h (histogramT.data) = histogramT.data := by
  have hd : histogramT.data = histogramT1.data ++ (histogramT2.data ++ (histogramT3.data)) := by
    simp only [histogramT, String.data_append, List.append_assoc]
  rw [hd]
  unfold dimsRep
  simp only [List.length_append]
  rw [dimsRepF_append_scan w h _ _ _ (by decide)]
  rw [dimsRepF_append_scan w h _ _ _ (by decide)]
  rw [show dimsRepF w h ((histogramT3.data)).length (histogramT3.data) = histogramT3.data from rfl]

theorem dimsRep_id_heatmap (w h : Nat) : dimsRep w h (heatmapT.data) = heatmapT.data := by
  have hd : heatmapT.data = heatmapT1.data ++ (heatmapT2.data ++ (heatmapT3.data ++ (heatmapT4.data))) := by
    simp only [heatmapT, String.data_append, List.append_assoc]
  rw [hd]
  unfold dimsRep
  simp only [List.length_append]
  rw [dimsRepF_append_scan w h _ _ _ (by decide)]
  rw [dimsRepF_append_scan w h _ _ _ (by decide)]
  rw [dimsRepF_append_scan w h _ _ _ (by decide)]
  rw [show dimsRepF w h ((heatmapT4.data)).length (heatmapT4.data) = heatmapT4.data from rfl]

theorem dimsRep_id_bubbleChart (w h : Nat) : dimsRep w h (bubbleChartT.data) = bubbleChartT.data := by
  have hd : bubbleChartT.data = bubbleChartT1.data ++ (bubbleChartT2.data ++ (bubbleChartT3.data)) := by
    simp only [bubbleChartT, String.data_append, List.append_assoc]
  rw [hd]
  unfold dimsRep
  simp only [List.length_append]
  rw [dimsRepF_append_scan w h _ _ _ (by decide)]
  rw [dimsRepF_append_scan w h _ _ _ (by decide)]
  rw [show dimsRepF w h ((bubbleChartT3.data)).length (bubbleChartT3.data) = bubbleChartT3.data from rfl]

theorem dimsRep_id_stackedBarChart (w h : Nat) : dimsRep w h (stackedBarChartT.data) = stackedBarChartT.data := by
  have hd : stackedBarChartT.data = stackedBarChartT1.data ++ (stackedBarChartT2.data ++ (stackedBarChartT3.data ++ (stackedBarChartT4.data))) := by
    simp only [stackedBarChartT, String.data_append, List.append_assoc]
  rw [hd]
  unfold dimsRep
  simp only [List.length_append]
  rw [dimsRepF_append_scan w h _ _ _ (by decide)]
  rw [dimsRepF_append_scan w h _ _ _ (by decide)]
  rw [dimsRepF_append_scan w h _ _ _ (by decide)]
  rw [show dimsRepF w h ((stackedBarChartT4.data)).length (stackedBarChartT4.data) = stackedBarChartT4.data from rfl]

theorem dimsRep_id_timeline (w h : Nat) : dimsRep w h (timelineT.data) = timelineT.data := by
  have hd : timelineT.data = timelineT1.data ++ (timelineT2.data ++ (timelineT3.data ++ (timelineT4.data ++ (timelineT5.data ++ (timelineT6.data))))) := by
    simp only [timelineT, String.data_append, List.append_assoc]
  rw [hd]
  unfold dimsRep
  simp only [List.length_append]
  rw [dimsRepF_append_scan w h _ _ _ (by decide)]
  rw [dimsRepF_append_scan w h _ _ _ (by decide)]
  rw [dimsRepF_append_scan w h _ _ _ (by decide)]
  rw [dimsRepF_append_scan w h _ _ _ (by decide)]
  rw [dimsRepF_append_scan w h _ _ _ (by decide)]
  rw [show dimsRepF w h ((timelineT6.data)).length (timelineT6.data) = timelineT6.data from rfl]

theorem dimsRep_id_radar (w h : Nat) : dimsRep w h (radarT.data) = radarT.data := by
  have hd : radarT.data = radarT1.data ++ (radarT2.data ++ (radarT3.data ++ (radarT4.data ++ (radarT5.data ++ (radarT6.data))))) := by
    simp only [radarT, String.data_append, List.append_assoc]
  rw [hd]
  unfold dimsRep
  simp only [List.length_append]
  rw [dimsRepF_append_scan w h _ _ _ (by decide)]
  rw [dimsRepF_append_scan w h _ _ _ (by decide)]
  rw [dimsRepF_append_scan w h _ _ _ (by decide)]
  rw [dimsRepF_append_scan w h _ _ _ (by decide)]
  rw [dimsRepF_append_scan w h _ _ _ (by decide)]
  rw [show dimsRepF w h ((radarT6.data)).length (radarT6.data) = radarT6.data from rfl]

theorem dimsRep_id_boxPlot (w h : Nat) : dimsRep w h (boxPlotT.data) = boxPlotT.data := by
  have hd : boxPlotT.data = boxPlotT1.data ++ (boxPlotT2.data ++ (boxPlotT3.data ++ (boxPlotT4.data ++ (boxPlotT5.data ++ (boxPlotT6.data ++ (boxPlotT7.data)))))) := by
    simp only [boxPlotT, String.data_append, List.append_assoc]
  rw [hd]
  unfold dimsRep
  simp only [List.length_append]
  rw [dimsRepF_append_scan w h _ _ _ (by decide)]
  rw [dimsRepF_append_scan w h _ _ _ (by decide)]
  rw [dimsRepF_append_scan w h _ _ _ (by decide)]
  rw [dimsRepF_append_scan w h _ _ _ (by decide)]
  rw [dimsRepF_append_scan w h _ _ _ (by decide)]
  rw [dimsRepF_append_scan w h _ _ _ (by decide)]
  rw [show dimsRepF w h ((boxPlotT7.data)).length (boxPlotT7.data) = boxPlotT7.data from rfl]

theorem colors0Rep_id_histogram (color : List Char) : colors0Rep color (histogramT.data) = histogramT.data := by
  have hd : histogramT.data = histogramT1.data ++ (histogramT2.data ++ (histogramT3.data)) := by
    simp only [histogramT, String.data_append, List.append_assoc]
  rw [hd]
  unfold colors0Rep
  simp only [List.length_append]
  rw [colors0RepF_append_scan color _ _ _ (by decide)]
  rw [colors0RepF_append_scan color _ _ _ (by decide)]
  rw [show colors0RepF color ((histogramT3.data)).length (histogramT3.data) = histogramT3.data from rfl]

theorem steelRep_id_histogram (color : List Char) : steelRep color (histogramT.data) = histogramT.data := by
  have hd : histogramT.data = histogramT1.data ++ (histogramT2.data ++ (histogramT3.data)) := by
    simp only [histogramT, String.data_append, List.append_assoc]
  rw [hd]
  unfold steelRep
  simp only [List.length_append]
  rw [steelRepF_append_scan color _ _ _ (by decide)]
  rw [steelRepF_append_scan color _ _ _ (by decide)]
  rw [show steelRepF color ((histogramT3.data)).length (histogramT3.data) = histogramT3.data from rfl]

theorem colors0Rep_id_heatmap (color : List Char) : colors0Rep color (heatmapT.data) = heatmapT.data := by
  have hd : heatmapT.data = heatmapT1.data ++ (heatmapT2.data ++ (heatmapT3.data ++ (heatmapT4.data))) := by
    simp only [heatmapT, String.data_append, List.append_assoc]
  rw [hd]
  unfold colors0Rep
  simp only [List.length_append]
  rw [colors0RepF_append_scan color _ _ _ (by decide)]
  rw [colors0RepF_append_scan color _ _ _ (by decide)]
  rw [colors0RepF_append_scan color _ _ _ (by decide)]
  rw [show colors0RepF color ((heatmapT4.data)).length (heatmapT4.data) = heatmapT4.data from rfl]

theorem steelRep_id_heatmap (color : List Char) : steelRep color (heatmapT.data) = heatmapT.data := by
  have hd : heatmapT.data = heatmapT1.data ++ (heatmapT2.data ++ (heatmapT3.data ++ (heatmapT4.data))) := by
    simp only [heatmapT, String.data_append, List.append_assoc]
  rw [hd]
  unfold steelRep
  simp only [List.length_append]
  rw [steelRepF_append_scan color _ _ _ (by decide)]
  rw [steelRepF_append_scan color _ _ _ (by decide)]
  rw [steelRepF_append_scan color _ _ _ (by decide)]
  rw [show steelRepF color ((heatmapT4.data)).length (heatmapT4.data) = heatmapT4.data from rfl]

theorem colors0Rep_id_bubbleChart (color : List Char) : colors0Rep color (bubbleChartT.data) = bubbleChartT.data := by
  have hd : bubbleChartT.data = bubbleChartT1.data ++ (bubbleChartT2.data ++ (bubbleChartT3.data)) := by
    simp only [bubbleChartT, String.data_append, List.append_assoc]
  rw [hd]
  unfold colors0Rep
  simp only [List.length_append]
  rw [colors0RepF_append_scan color _ _ _ (by decide)]
  rw [colors0RepF_append_scan color _ _ _ (by decide)]
  rw [show colors0RepF color ((bubbleChartT3.data)).length (bubbleChartT3.data) = bubbleChartT3.data from rfl]

theorem steelRep_id_bubbleChart (color : List Char) : steelRep color (bubbleChartT.data) = bubbleChartT.data := by
  have hd : bubbleChartT.data = bubbleChartT1.data ++ (bubbleChartT2.data ++ (bubbleChartT3.data)) := by
    simp only [bubbleChartT, String.data_append, List.append_assoc]
  rw [hd]
  unfold steelRep
  simp only [List.length_append]
  rw [steelRepF_append_scan color _ _ _ (by decide)]
  rw [steelRepF_append_scan color _ _ _ (by decide)]
  rw [show steelRepF color ((bubbleChartT3.data)).length (bubbleChartT3.data) = bubbleChartT3.data from rfl]

theorem colors0Rep_id_stackedBarChart (color : List Char) : colors0Rep color (stackedBarChartT.data) = stackedBarChartT.data := by
  have hd : stackedBarChartT.data = stackedBarChartT1.data ++ (stackedBarChartT2.data ++ (stackedBarChartT3.data ++ (stackedBarChartT4.data))) := by
    simp only [stackedBarChartT, String.data_append, List.append_assoc]
  rw [hd]
  unfold colors0Rep
  simp only [List.length_append]
  rw [colors0RepF_append_scan color _ _ _ (by decide)]
  rw [colors0RepF_append_scan color _ _ _ (by decide)]
  rw [colors0RepF_append_scan color _ _ _ (by decide)]
  rw [show colors0RepF color ((stackedBarChartT4.data)).length (stackedBarChartT4.data) = stackedBarChartT4.data from rfl]

theorem steelRep_id_stackedBarChart (color : List Char) : steelRep color (stackedBarChartT.data) = stackedBarChartT.data := by
  have hd : stackedBarChartT.data = stackedBarChartT1.data ++ (stackedBarChartT2.data ++ (stackedBarChartT3.data ++ (stackedBarChartT4.data))) := by
    simp only [stackedBarChartT, String.data_append, List.append_assoc]
  rw [hd]
  unfold steelRep
  simp only [List.length_append]
  rw [steelRepF_append_scan color _ _ _ (by decide)]
  rw [steelRepF_append_scan color _ _ _ (by decide)]
  rw [steelRepF_append_scan color _ _ _ (by decide)]
  rw [show steelRepF color ((stackedBarChartT4.data)).length (stackedBarChartT4.data) = stackedBarChartT4.data from rfl]

theorem dims_id_barSuffix (w h : Nat) :
    dimsRepF w h ((barChartT2.data).length + (barChartT3.data).length)
      (barChartT2.data ++ barChartT3.data) = barChartT2.data ++ barChartT3.data := by
  rw [dimsRepF_append_scan w h _ _ _ (by decide)]
  rw [show dimsRepF w h ((barChartT3.data)).length (barChartT3.data) = barChartT3.data from rfl]

theorem dims_id_hbarSuffix (w h : Nat) :
    dimsRepF w h ((horizontalBarT2.data).length + (horizontalBarT3.data).length)
      (horizontalBarT2.data ++ horizontalBarT3.data) = horizontalBarT2.data ++ horizontalBarT3.data := by
  rw [dimsRepF_append_scan w h _ _ _ (by decide)]
  rw [show dimsRepF w h ((horizontalBarT3.data)).length (horizontalBarT3.data) = horizontalBarT3.data from rfl]

/-- On the timeline template, the `utils.colors[0]` replacement with a hex
color rewrites exactly the one occurrence (between the third template
chunk's boundaries). -/
theorem colors0Rep_ff0000_timeline :
    colors0Rep (("#ff0000").data) (timelineT.data) =
      timelineT1.data ++ (timelineT2.data ++ ((("\"#ff0000\"").data) ++
        (timelineT4.data ++ (timelineT5.data ++ timelineT6.data)))) := by
  have hd : timelineT.data = timelineT1.data ++ (timelineT2.data ++
      (timelineT3.data ++ (timelineT4.data ++ (timelineT5.data ++ timelineT6.data)))) := by
    simp only [timelineT, String.data_append, List.append_assoc]
  rw [hd]
  unfold colors0Rep
  simp only [List.length_append]
  rw [colors0RepF_append_scan _ _ _ _ (by decide)]
  rw [colors0RepF_append_scan _ _ _ _ (by decide)]
  rw [show timelineT3.data = ("utils.colors[0]").data from by decide]
  rw [show ((("utils.colors[0]").data)).length = 15 from rfl]
  rw [show (15 : Nat) + (((timelineT4.data)).length + (((timelineT5.data)).length +
      ((timelineT6.data)).length)) =
    (14 + (((timelineT4.data)).length + (((timelineT5.data)).length +
      ((timelineT6.data)).length))) + 1 from by omega]
  rw [colors0RepF_match]
  rw [show (14 : Nat) + (((timelineT4.data)).length + (((timelineT5.data)).length +
      ((timelineT6.data)).length)) =
    ((timelineT4.data)).length + (14 + (((timelineT5.data)).length +
      ((timelineT6.data)).length)) from by omega]
  rw [colors0RepF_append_scan _ _ _ _ (by decide)]
  rw [show (14 : Nat) + (((timelineT5.data)).length + ((timelineT6.data)).length) =
    ((timelineT5.data)).length + (14 + ((timelineT6.data)).length) from by omega]
  rw [colors0RepF_append_scan _ _ _ _ (by decide)]
  rw [show colors0RepF (("#ff0000").data) (14 + ((timelineT6.data)).length)
    (timelineT6.data) = timelineT6.data from rfl]
  rfl

theorem steelRep_id_timelineOut :
    steelRep (("#ff0000").data)
      (timelineT1.data ++ (timelineT2.data ++ ((("\"#ff0000\"").data) ++
        (timelineT4.data ++ (timelineT5.data ++ timelineT6.data))))) =
      timelineT1.data ++ (timelineT2.data ++ ((("\"#ff0000\"").data) ++
        (timelineT4.data ++ (timelineT5.data ++ timelineT6.data)))) := by
  unfold steelRep
  simp only [List.length_append]
  rw [steelRepF_append_scan _ _ _ _ (by decide)]
  rw [steelRepF_append_scan _ _ _ _ (by decide)]
  rw [steelRepF_append_scan _ _ _ _ (by decide)]
  rw [steelRepF_append_scan _ _ _ _ (by decide)]
  rw [steelRepF_append_scan _ _ _ _ (by decide)]
  rw [show steelRepF (("#ff0000").data) (((timelineT6.data)).length)
    (timelineT6.data) = timelineT6.data from rfl]

/-- C2 (amended): `generateFinalCode` returns the stored template verbatim
for histogram, heatmap, bubble-chart and stacked-bar-chart regardless of the
descriptor, and for timeline, radar and box-plot whenever the (defaulted)
color does not start with `#`; the remaining template-only kinds timeline,
radar and box-plot are NOT identical for `#` colors, because the
`utils.colors[0]` replacement also runs for them (see the counterexample). -/
theorem generateFinalCode_template_only (vtype : String) (pd : ParsedVis)
    (hv : vtype ∈ (["histogram", "heatmap", "bubble-chart", "stacked-bar-chart"] : List String) ∨
      (vtype ∈ (["timeline", "radar", "box-plot"] : List String) ∧
        startsWithL ("#".data) (if pd.color = "" then "steelblue" else pd.color).data = false)) :
    generateFinalCode vtype pd = (getTemplates vtype).map String.data := by
  obtain ⟨d, w, h, color⟩ := pd
  rcases hv with hv | ⟨hv, hcol⟩
  · fin_cases hv
    · unfold generateFinalCode
      simp only []
      rw [show getTemplates "histogram" = some histogramT from rfl, Option.map_some', Option.map_some']
      rw [if_neg (show ¬(templateOnlyTypes.contains "histogram" = false ∧ 0 < d.length ∧
        simpleDataTypes.contains "histogram" = true) from fun hcond => absurd hcond.1 (by decide))]
      rw [dimsRep_id_histogram]
      by_cases hc : startsWithL ("#".data) (if color = "" then "steelblue" else color).data = true
      · rw [if_pos hc, colors0Rep_id_histogram, steelRep_id_histogram]
      · rw [if_neg hc]
    · unfold generateFinalCode
      simp only []
      rw [show getTemplates "heatmap" = some heatmapT from rfl, Option.map_some', Option.map_some']
      rw [if_neg (show ¬(templateOnlyTypes.contains "heatmap" = false ∧ 0 < d.length ∧
        simpleDataTypes.contains "heatmap" = true) from fun hcond => absurd hcond.1 (by decide))]
      rw [dimsRep_id_heatmap]
      by_cases hc : startsWithL ("#".data) (if color = "" then "steelblue" else color).data = true
      · rw [if_pos hc, colors0Rep_id_heatmap, steelRep_id_heatmap]
      · rw [if_neg hc]
    · unfold generateFinalCode
      simp only []
      rw [show getTemplates "bubble-chart" = some bubbleChartT from rfl, Option.map_some', Option.map_some']
      rw [if_neg (show ¬(templateOnlyTypes.contains "bubble-chart" = false ∧ 0 < d.length ∧
        simpleDataTypes.contains "bubble-chart" = true) from fun hcond => absurd hcond.1 (by decide))]
      rw [dimsRep_id_bubbleChart]
      by_cases hc : startsWithL ("#".data) (if color = "" then "steelblue" else color).data = true
      · rw [if_pos hc, colors0Rep_id_bubbleChart, steelRep_id_bubbleChart]
      · rw [if_neg hc]
    · unfold generateFinalCode
      simp only []
      rw [show getTemplates "stacked-bar-chart" = some stackedBarChartT from rfl,
        Option.map_some', Option.map_some']
      rw [if_neg (show ¬(templateOnlyTypes.contains "stacked-bar-chart" = false ∧ 0 < d.length ∧
        simpleDataTypes.contains "stacked-bar-chart" = true) from fun hcond => absurd hcond.1 (by decide))]
      rw [dimsRep_id_stackedBarChart]
      by_cases hc : startsWithL ("#".data) (if color = "" then "steelblue" else color).data = true
      · rw [if_pos hc, colors0Rep_id_stackedBarChart, steelRep_id_stackedBarChart]
      · rw [if_neg hc]
  · fin_cases hv
    · unfold generateFinalCode
      simp only []
      rw [show getTemplates "timeline" = some timelineT from rfl, Option.map_some', Option.map_some']
      rw [if_neg (show ¬(templateOnlyTypes.contains "timeline" = false ∧ 0 < d.length ∧
        simpleDataTypes.contains "timeline" = true) from fun hcond => absurd hcond.1 (by decide))]
      rw [dimsRep_id_timeline]
      rw [if_neg (by simp only [hcol]; exact Bool.false_ne_true)]
    · unfold generateFinalCode
      simp only []
      rw [show getTemplates "radar" = some radarT from rfl, Option.map_some', Option.map_some']
      rw [if_neg (show ¬(templateOnlyTypes.contains "radar" = false ∧ 0 < d.length ∧
        simpleDataTypes.contains "radar" = true) from fun hcond => absurd hcond.1 (by decide))]
      rw [dimsRep_id_radar]
      rw [if_neg (by simp only [hcol]; exact Bool.false_ne_true)]
    · unfold generateFinalCode
      simp only []
      rw [show getTemplates "box-plot" = some boxPlotT from rfl, Option.map_some', Option.map_some']
      rw [if_neg (show ¬(templateOnlyTypes.contains "box-plot" = false ∧ 0 < d.length ∧
        simpleDataTypes.contains "box-plot" = true) from fun hcond => absurd hcond.1 (by decide))]
      rw [dimsRep_id_boxPlot]
      rw [if_neg (by simp only [hcol]; exact Bool.false_ne_true)]

theorem generateFinalCode_template_only_witness :
    generateFinalCode "histogram" ⟨[], 0, 0, ""⟩ =
      (getTemplates "histogram").map String.data :=
  generateFinalCode_template_only "histogram" ⟨[], 0, 0, ""⟩ (Or.inl (by simp))

/-- C2 counterexample: for the template-only kind `timeline` and a
descriptor whose color is the hex value `#ff0000`, the generated code is
NOT the stored template — the `utils.colors[0]` occurrence is replaced. -/
theorem generateFinalCode_timeline_changed :
    generateFinalCode "timeline" ⟨[], 0, 0, "#ff0000"⟩ ≠
      (getTemplates "timeline").map String.data := by
  intro h
  unfold generateFinalCode at h
  simp only [] at h
  rw [show getTemplates "timeline" = some timelineT from rfl, Option.map_some',
    Option.map_some'] at h
  rw [if_neg (show ¬(templateOnlyTypes.contains "timeline" = false ∧
      0 < ([] : List JValue).length ∧
      simpleDataTypes.contains "timeline" = true) from
    fun hcond => absurd hcond.1 (by decide))] at h
  rw [dimsRep_id_timeline] at h
  rw [show (if ("#ff0000" : String) = "" then "steelblue" else "#ff0000") =
    "#ff0000" from rfl] at h
  rw [if_pos (show startsWithL ("#".data) (("#ff0000" : String).data) = true
    from rfl)] at h
  rw [colors0Rep_ff0000_timeline, steelRep_id_timelineOut] at h
  have h2 := Option.some.inj h
  have hlen := congrArg List.length h2
  rw [show timelineT.data = timelineT1.data ++ (timelineT2.data ++
      (timelineT3.data ++ (timelineT4.data ++ (timelineT5.data ++ timelineT6.data))))
    from by simp only [timelineT, String.data_append, List.append_assoc]] at hlen
  simp only [List.length_append] at hlen
  rw [show ((("\"#ff0000\"").data)).length = 9 from rfl,
    show ((timelineT3.data)).length = 15 from rfl] at hlen
  omega

theorem startsWithL_get :
    ∀ (p l : List Char), startsWithL p l = true →
      ∀ j, j < p.length → l.get? j = p.get? j := by
  intro p
  induction p with
  | nil => intro l _ j hj; simp at hj
  | cons a as ih =>
    intro l h j hj
    cases l with
    | nil => simp [startsWithL] at h
    | cons c cs =>
      simp only [startsWithL, Bool.and_eq_true, beq_iff_eq] at h
      cases j with
      | zero => simp [h.1]
      | succ j' =>
        simp only [List.get?_cons_succ]
        exact ih cs h.2 j' (by simpa using hj)

theorem startsWithL_marker_false (pat : List Char) (j : Nat) (x : Char)
    (hj : pat.get? j = some x) (l : List Char) (hl : l.get? j ≠ some x) :
    startsWithL pat l = false := by
  by_contra h
  rw [Bool.not_eq_false] at h
  exact hl ((startsWithL_get pat l h j (List.get?_eq_some.1 hj).1).trans hj)

theorem tryDim_none_head (c : Char) (cs : List Char)
    (hc : c ≠ 'w' ∧ c ≠ 'h') : tryDim (c :: cs) = none := by
  unfold tryDim
  rw [show ("width").data = 'w' :: ("idth").data from rfl,
    show ("height").data = 'h' :: ("eight").data from rfl]
  rw [show startsWithL ('w' :: ("idth").data) (c :: cs) =
    (('w' == c) && startsWithL (("idth").data) cs) from rfl]
  rw [show startsWithL ('h' :: ("eight").data) (c :: cs) =
    (('h' == c) && startsWithL (("eight").data) cs) from rfl]
  rw [show (('w' : Char) == c) = false from beq_eq_false_iff_ne.mpr (Ne.symm hc.1)]
  rw [show (('h' : Char) == c) = false from beq_eq_false_iff_ne.mpr (Ne.symm hc.2)]
  simp

theorem dimsRepF_append (w h : Nat) (B : List Char) (f : Nat) :
    ∀ A : List Char, (∀ c ∈ A, c ≠ 'w' ∧ c ≠ 'h') →
    dimsRepF w h (A.length + f) (A ++ B) = A ++ dimsRepF w h f B := by
  intro A
  induction A with
  | nil => intro _; simp
  | cons a as ih =>
    intro hA
    rw [show (a :: as).length + f = (as.length + f) + 1 from by simp; omega]
    rw [List.cons_append, dimsRepF.eq_def]
    simp only []
    rw [tryDim_none_head a _ (hA a (by simp))]
    rw [ih fun c hc => hA c (by simp [hc])]
    rfl

theorem colors0RepF_append (color B : List Char) (f : Nat)
    (hB : ∀ c ∈ B.take 5, c ≠ '.') :
    ∀ A : List Char, (∀ c ∈ A, c ≠ '.') →
    colors0RepF color (A.length + f) (A ++ B) = A ++ colors0RepF color f B := by
  intro A
  induction A with
  | nil => intro _; simp
  | cons a as ih =>
    intro hA
    have hsw : startsWithL ("utils.colors[0]").data ((a :: as) ++ B) = false := by
      refine startsWithL_marker_false (("utils.colors[0]").data) 5 '.' (by decide) _ ?_
      by_cases h5 : 5 < (a :: as).length
      · rw [List.get?_append h5]
        intro hg
        exact hA '.' (List.get?_mem hg) rfl
      · rw [List.get?_append_right (le_of_not_lt h5)]
        intro hg
        have hk : 5 - (a :: as).length < 5 := by
          simp only [List.length_cons] at h5 ⊢
          omega
        rw [← List.get?_take hk] at hg
        exact hB '.' (List.get?_mem hg) rfl
    rw [show (a :: as).length + f = (as.length + f) + 1 from by simp; omega]
    rw [List.cons_append, colors0RepF.eq_def]
    simp only []
    simp only [List.cons_append] at hsw
    rw [hsw]
    simp only [Bool.false_eq_true, if_false]
    rw [ih fun c hc => hA c (by simp [hc])]
    rfl

theorem trySteel_none_head (c : Char) (cs : List Char) (hc : c ≠ '.') :
    trySteel (c :: cs) = none := by
  unfold trySteel
  rw [show (".style(\"fill\",").data = '.' :: ("style(\"fill\",").data from rfl]
  simp [startsWithL, show ('.' = c) = False from by simp [Ne.symm hc]]

theorem steelRepF_append (color B : List Char) (f : Nat) :
    ∀ A : List Char, (∀ c ∈ A, c ≠ '.') →
    steelRepF color (A.length + f) (A ++ B) = A ++ steelRepF color f B := by
  intro A
  induction A with
  | nil => intro _; simp
  | cons a as ih =>
    intro hA
    rw [show (a :: as).length + f = (as.length + f) + 1 from by simp; omega]
    rw [List.cons_append, steelRepF.eq_def]
    simp only []
    rw [trySteel_none_head a _ (hA a (by simp))]
    rw [ih fun c hc => hA c (by simp [hc])]
    rfl

/-- Characters of `const data = <stringified records>;` avoid `w`, `h` and
`.` — the characters the dimension and color replacement patterns would
need in their matched text at the corresponding offsets. -/
theorem declChars_marker (rs : List (String × Nat))
    (hsafe : ∀ r ∈ rs, safeLabel r.1 = true) (hne : rs ≠ []) :
    ∀ c ∈ ("const data = ").data ++ jsonChars rs ++ [';'],
      c ≠ 'w' ∧ c ≠ 'h' ∧ c ≠ '.' := by
  intro c hc
  rcases List.mem_append.1 hc with hc | hc
  rcases List.mem_append.1 hc with hc | hc
  · exact (show ∀ y ∈ ("const data = ").data, y ≠ 'w' ∧ y ≠ 'h' ∧ y ≠ '.' by decide) c hc
  · rw [jsonChars_eq rs hne] at hc
    rcases List.mem_cons.1 hc with hc | hc
    · subst hc; refine ⟨by decide, by decide, by decide⟩
    rcases List.mem_append.1 hc with hc | hc
    · have f := plainJsonChar_facts (recsInterior_all rs hsafe c hc)
      exact ⟨f.2.2.1, f.2.2.2.1, f.2.2.2.2.1⟩
    · rcases List.mem_singleton.1 hc with hc
      subst hc; refine ⟨by decide, by decide, by decide⟩
  · rcases List.mem_singleton.1 hc with hc
    subst hc; refine ⟨by decide, by decide, by decide⟩

/-- Any code of the form `const data = <stringified records>;<anything>`
parses back to exactly those records. -/
theorem parseViz_data_of_decl (rs : List (String × Nat))
    (hsafe : ∀ r ∈ rs, safeLabel r.1 = true) (hne : rs ≠ []) (rest : List Char) :
    (parseVisualizationData (String.mk
      (("const data = ").data ++ jsonChars rs ++ ';' :: rest))).data = recsData rs := by
  have hjson := jsonChars_eq rs hne
  have hshape : ("const data = ").data ++ jsonChars rs ++ ';' :: rest =
      'c' :: 'o' :: 'n' :: 's' :: 't' :: ' ' :: 'd' :: (['a','t','a'] ++
        ' ' :: '=' :: ' ' :: '[' :: (recsInterior rs ++ ']' :: (';' :: rest))) := by
    rw [hjson]
    simp
  have hI : ∀ x ∈ recsInterior rs, x ≠ ']' := fun x hx =>
    (plainJsonChar_facts (recsInterior_all rs hsafe x hx)).2.1
  have hfv : findVarAssign [("data".data)]
      (("const data = ").data ++ jsonChars rs ++ ';' :: rest) =
      some ('[' :: recsInterior rs ++ [']']) := by
    rw [hshape, findVarAssign.eq_def]
    simp only []
    rw [tryVarAssign_decl [("data".data)] 'd' ['a','t','a'] (recsInterior rs) (';' :: rest)
      (by decide) hI (by simp [List.find?, startsWithL])]
  have hext : extractDataArray (("const data = ").data ++ jsonChars rs ++ ';' :: rest) =
      recsData rs := by
    refine extractDataArray_of_cap1 _ rs hsafe hne ?_
    rw [hfv]
    simp only []
    exact congrArg some hjson.symm
  have hie : (recsData rs).isEmpty = false := by
    cases rs with
    | nil => exact absurd rfl hne
    | cons r rs' => rfl
  unfold parseVisualizationData parseVisualizationDataE
  simp only []
  rw [hext, hie]
  simp only [Bool.false_eq_true, if_false]

/-- C1 (amended): the synthesis/inference round-trip holds, but only for
`bar-chart` and `horizontal-bar` — the two substitutable kinds whose
template data records carry a `name` field, which the data-substitution
regex requires.  For them, any descriptor with non-empty literal records
round-trips: the generated code parses back to exactly the descriptor data,
for every width, height and color.  (`pie-chart` and `donut-chart` are
claimed substitutable but are not — see the counterexample.) -/
theorem generateFinalCode_roundtrip (vtype : String)
    (hv : vtype = "bar-chart" ∨ vtype = "horizontal-bar")
    (rs : List (String × Nat)) (hsafe : ∀ r ∈ rs, safeLabel r.1 = true) (hne : rs ≠ [])
    (w h : Nat) (color : String) :
    ∃ out : List Char,
      generateFinalCode vtype ⟨recsData rs, w, h, color⟩ = some out ∧
        (parseVisualizationData (String.mk out)).data = recsData rs := by
  have hmark := declChars_marker rs hsafe hne
  have hlenpos : 0 < (recsData rs).length := by
    simp only [recsData, List.length_map]
    exact List.length_pos.mpr hne
  have hAwh : ∀ c ∈ ("const data = ").data ++ jsonChars rs ++ [';'],
      c ≠ 'w' ∧ c ≠ 'h' := fun c hc => ⟨(hmark c hc).1, (hmark c hc).2.1⟩
  have hAdot : ∀ c ∈ ("const data = ").data ++ jsonChars rs ++ [';'],
      c ≠ '.' := fun c hc => (hmark c hc).2.2
  rcases hv with hv | hv
  · subst hv
    have hdr : dataReplace (jsonStringify (jarr (recsData rs))) (barChartT.data) =
        ("const data = ").data ++ jsonChars rs ++ ';' :: (barChartT2.data ++ barChartT3.data) := rfl
    have hsplit : ("const data = ").data ++ jsonChars rs ++ ';' :: (barChartT2.data ++ barChartT3.data) =
        (("const data = ").data ++ jsonChars rs ++ [';']) ++ (barChartT2.data ++ barChartT3.data) := by
      simp
    have hdims : ∀ w' h' : Nat,
        dimsRep w' h' ((("const data = ").data ++ jsonChars rs ++ [';']) ++
          (barChartT2.data ++ barChartT3.data)) =
        (("const data = ").data ++ jsonChars rs ++ [';']) ++ (barChartT2.data ++ barChartT3.data) := by
      intro w' h'
      unfold dimsRep
      rw [List.length_append, dimsRepF_append w' h' _ _ _ hAwh]
      rw [show ((barChartT2.data ++ barChartT3.data) : List Char).length =
        (barChartT2.data).length + (barChartT3.data).length from List.length_append _ _]
      rw [dims_id_barSuffix w' h']
    unfold generateFinalCode
    simp only []
    rw [show getTemplates "bar-chart" = some barChartT from rfl, Option.map_some']
    rw [if_pos (show templateOnlyTypes.contains "bar-chart" = false ∧
        0 < (recsData rs).length ∧
        simpleDataTypes.contains "bar-chart" = true from ⟨by decide, hlenpos, by decide⟩)]
    rw [hdr, hsplit, hdims]
    by_cases hc : startsWithL ("#".data) (if color = "" then "steelblue" else color).data = true
    · rw [if_pos hc]
      rw [show colors0Rep (if color = "" then "steelblue" else color).data
          ((("const data = ").data ++ jsonChars rs ++ [';']) ++ (barChartT2.data ++ barChartT3.data)) =
        (("const data = ").data ++ jsonChars rs ++ [';']) ++
          colors0RepF (if color = "" then "steelblue" else color).data
            (barChartT2.data ++ barChartT3.data).length (barChartT2.data ++ barChartT3.data) from by
        unfold colors0Rep
        rw [List.length_append,
          colors0RepF_append _ _ _ (by decide) _ hAdot]]
      rw [show steelRep (if color = "" then "steelblue" else color).data
          ((("const data = ").data ++ jsonChars rs ++ [';']) ++
            colors0RepF (if color = "" then "steelblue" else color).data
              (barChartT2.data ++ barChartT3.data).length (barChartT2.data ++ barChartT3.data)) =
        (("const data = ").data ++ jsonChars rs ++ [';']) ++
          steelRepF (if color = "" then "steelblue" else color).data
            (colors0RepF (if color = "" then "steelblue" else color).data
              (barChartT2.data ++ barChartT3.data).length (barChartT2.data ++ barChartT3.data)).length
            (colors0RepF (if color = "" then "steelblue" else color).data
              (barChartT2.data ++ barChartT3.data).length (barChartT2.data ++ barChartT3.data)) from by
        unfold steelRep
        rw [List.length_append, steelRepF_append _ _ _ _ hAdot]]
      refine ⟨_, rfl, ?_⟩
      rw [show (("const data = ").data ++ jsonChars rs ++ [';']) ++
          steelRepF (if color = "" then "steelblue" else color).data
            (colors0RepF (if color = "" then "steelblue" else color).data
              (barChartT2.data ++ barChartT3.data).length (barChartT2.data ++ barChartT3.data)).length
            (colors0RepF (if color = "" then "steelblue" else color).data
              (barChartT2.data ++ barChartT3.data).length (barChartT2.data ++ barChartT3.data)) =
        ("const data = ").data ++ jsonChars rs ++ ';' ::
          steelRepF (if color = "" then "steelblue" else color).data
            (colors0RepF (if color = "" then "steelblue" else color).data
              (barChartT2.data ++ barChartT3.data).length (barChartT2.data ++ barChartT3.data)).length
            (colors0RepF (if color = "" then "steelblue" else color).data
              (barChartT2.data ++ barChartT3.data).length (barChartT2.data ++ barChartT3.data)) from by simp]
      exact parseViz_data_of_decl rs hsafe hne _
    · rw [if_neg hc]
      refine ⟨_, rfl, ?_⟩
      rw [← hsplit]
      exact parseViz_data_of_decl rs hsafe hne _
  · subst hv
    have hdr : dataReplace (jsonStringify (jarr (recsData rs))) (horizontalBarT.data) =
        ("const data = ").data ++ jsonChars rs ++ ';' :: (horizontalBarT2.data ++ horizontalBarT3.data) := rfl
    have hsplit : ("const data = ").data ++ jsonChars rs ++ ';' ::
        (horizontalBarT2.data ++ horizontalBarT3.data) =
        (("const data = ").data ++ jsonChars rs ++ [';']) ++
          (horizontalBarT2.data ++ horizontalBarT3.data) := by
      simp
    have hdims : ∀ w' h' : Nat,
        dimsRep w' h' ((("const data = ").data ++ jsonChars rs ++ [';']) ++
          (horizontalBarT2.data ++ horizontalBarT3.data)) =
        (("const data = ").data ++ jsonChars rs ++ [';']) ++
          (horizontalBarT2.data ++ horizontalBarT3.data) := by
      intro w' h'
      unfold dimsRep
      rw [List.length_append, dimsRepF_append w' h' _ _ _ hAwh]
      rw [show ((horizontalBarT2.data ++ horizontalBarT3.data) : List Char).length =
        (horizontalBarT2.data).length + (horizontalBarT3.data).length from List.length_append _ _]
      rw [dims_id_hbarSuffix w' h']
    unfold generateFinalCode
    simp only []
    rw [show getTemplates "horizontal-bar" = some horizontalBarT from rfl, Option.map_some']
    rw [if_pos (show templateOnlyTypes.contains "horizontal-bar" = false ∧
        0 < (recsData rs).length ∧
        simpleDataTypes.contains "horizontal-bar" = true from ⟨by decide, hlenpos, by decide⟩)]
    rw [hdr, hsplit, hdims]
    by_cases hc : startsWithL ("#".data) (if color = "" then "steelblue" else color).data = true
    · rw [if_pos hc]
      rw [show colors0Rep (if color = "" then "steelblue" else color).data
          ((("const data = ").data ++ jsonChars rs ++ [';']) ++
            (horizontalBarT2.data ++ horizontalBarT3.data)) =
        (("const data = ").data ++ jsonChars rs ++ [';']) ++
          colors0RepF (if color = "" then "steelblue" else color).data
            (horizontalBarT2.data ++ horizontalBarT3.data).length (horizontalBarT2.data ++ horizontalBarT3.data) from by
        unfold colors0Rep
        rw [List.length_append,
          colors0RepF_append _ _ _ (by decide) _ hAdot]]
      rw [show steelRep (if color = "" then "steelblue" else color).data
          ((("const data = ").data ++ jsonChars rs ++ [';']) ++
            colors0RepF (if color = "" then "steelblue" else color).data
              (horizontalBarT2.data ++ horizontalBarT3.data).length (horizontalBarT2.data ++ horizontalBarT3.data)) =
        (("const data = ").data ++ jsonChars rs ++ [';']) ++
          steelRepF (if color = "" then "steelblue" else color).data
            (colors0RepF (if color = "" then "steelblue" else color).data
              (horizontalBarT2.data ++ horizontalBarT3.data).length (horizontalBarT2.data ++ horizontalBarT3.data)).length
            (colors0RepF (if color = "" then "steelblue" else color).data
              (horizontalBarT2.data ++ horizontalBarT3.data).length (horizontalBarT2.data ++ horizontalBarT3.data)) from by
        unfold steelRep
        rw [List.length_append, steelRepF_append _ _ _ _ hAdot]]
      refine ⟨_, rfl, ?_⟩
      rw [show (("const data = ").data ++ jsonChars rs ++ [';']) ++
          steelRepF (if color = "" then "steelblue" else color).data
            (colors0RepF (if color = "" then "steelblue" else color).data
              (horizontalBarT2.data ++ horizontalBarT3.data).length (horizontalBarT2.data ++ horizontalBarT3.data)).length
            (colors0RepF (if color = "" then "steelblue" else color).data
              (horizontalBarT2.data ++ horizontalBarT3.data).length (horizontalBarT2.data ++ horizontalBarT3.data)) =
        ("const data = ").data ++ jsonChars rs ++ ';' ::
          steelRepF (if color = "" then "steelblue" else color).data
            (colors0RepF (if color = "" then "steelblue" else color).data
              (horizontalBarT2.data ++ horizontalBarT3.data).length (horizontalBarT2.data ++ horizontalBarT3.data)).length
            (colors0RepF (if color = "" then "steelblue" else color).data
              (horizontalBarT2.data ++ horizontalBarT3.data).length (horizontalBarT2.data ++ horizontalBarT3.data)) from by
        simp]
      exact parseViz_data_of_decl rs hsafe hne _
    · rw [if_neg hc]
      refine ⟨_, rfl, ?_⟩
      rw [← hsplit]
      exact parseViz_data_of_decl rs hsafe hne _

theorem generateFinalCode_roundtrip_witness :
    ∃ out : List Char,
      generateFinalCode "bar-chart" ⟨recsData [("A", 30)], 600, 400, "steelblue"⟩ =
        some out ∧
      (parseVisualizationData (String.mk out)).data = recsData [("A", 30)] :=
  generateFinalCode_roundtrip "bar-chart" (Or.inl rfl) [("A", 30)] (by decide)
    (by decide) 600 400 "steelblue"

/-- C1 counterexample: `pie-chart` is in the claimed substitutable subset,
but its template data records carry `label`, not `name`, so the data
substitution never fires: the generated code still holds the template's
five sample records and parsing it back does not recover the descriptor's
single record. -/
theorem generateFinalCode_pie_roundtrip_fails :
    ((generateFinalCode "pie-chart" ⟨recsData [("X", 1)], 600, 400, "steelblue"⟩).map
      fun out => (parseVisualizationData (String.mk out)).data) ≠
      some (recsData [("X", 1)]) := by
  intro heq
  have hlen := congrArg (Option.map List.length) heq
  rw [show Option.map List.length
      ((generateFinalCode "pie-chart" ⟨recsData [("X", 1)], 600, 400, "steelblue"⟩).map
        fun out => (parseVisualizationData (String.mk out)).data) = some 5 from rfl] at hlen
  rw [show Option.map List.length (some (recsData [("X", 1)])) = some 1 from rfl] at hlen
  exact absurd (Option.some.inj hlen) (by decide)

end VisD3
